import Mathlib

/-!
Shallow embedding of the landmark-interpretation core of the
GCPU-Hack-Sport-Coach repository (package `posture_analyzer`), together
with theorems settling the frozen claims about its specification.

Modelling conventions:
* A raw landmark is `Option Point3`: `none` stands for a landmark whose
  coordinates contain NaN (the code's missing-value marker); every
  consumer of the 33-row NumPy array guards with `np.isnan(p).any()`,
  so collapsing "has a NaN coordinate" to `none` is faithful for the
  array-based pipeline (`_landmarks_to_np`, `get_landmark_3d`,
  `_safe_x`, `calculate_angle`, `_angle_at`).
* Python floats are modelled by real numbers `ℝ`.
* Python dicts (insertion ordered) are association lists kept in
  insertion order; `max(..., key=...)` keeps the first maximum.
* Python deques with `maxlen` are lists together with a capped push.
-/

set_option autoImplicit false

namespace SportCoach

noncomputable section

open Real

open scoped Classical

/-- A 3D point, mirroring one row `(x, y, z)` of the landmark array. -/
abbrev Point3 : Type := ℝ × ℝ × ℝ

/-- Componentwise difference of two points (NumPy `p - q`). -/
def psub (p q : Point3) : Point3 := (p.1 - q.1, p.2.1 - q.2.1, p.2.2 - q.2.2)

/-- Dot product (NumPy `np.dot`). -/
def pdot (p q : Point3) : ℝ := p.1 * q.1 + p.2.1 * q.2.1 + p.2.2 * q.2.2

/-- Euclidean norm (NumPy `np.linalg.norm`). -/
def pnorm (p : Point3) : ℝ := Real.sqrt (pdot p p)

/-- Clipping `np.clip(c, -1.0, 1.0)`. -/
def clipCos (c : ℝ) : ℝ := min 1 (max (-1) c)

/-- Conversion `np.degrees (np.arccos c)`. -/
def degArccos (c : ℝ) : ℝ := (180 / Real.pi) * Real.arccos c

/-- Source `posture_analyzer/angles.py`, `calculate_angle`: angle at `p2`
between `p1 - p2` and `p3 - p2` in degrees; `none` when a point is
missing (None / NaN) or a formed vector has zero norm. -/
def calculate_angle (p1 p2 p3 : Option Point3) : Option ℝ :=
  match p1, p2, p3 with
  | some a, some b, some c =>
    let v1 := psub a b
    let v2 := psub c b
    let n1 := pnorm v1
    let n2 := pnorm v2
    if n1 = 0 ∨ n2 = 0 then none
    else some (degArccos (clipCos (pdot v1 v2 / (n1 * n2))))
  | _, _, _ => none

/-- Source `posture_analyzer/angles.py`, `calculate_distance`. -/
def calculate_distance (p1 p2 : Option Point3) : Option ℝ :=
  match p1, p2 with
  | some a, some b => some (pnorm (psub a b))
  | _, _ => none

/-- A frame: the raw landmark collection handed to the pipeline
(`landmarks` argument); entry `none` = NaN coordinates at that index. -/
abbrev Frame : Type := List (Option Point3)

/-- Source `posture_analyzer/landmarks.py`, `_landmarks_to_np`: a 33-row array,
rows beyond the input length (and input rows beyond index 32) are NaN. -/
def landmarksToNp (f : Frame) : Fin 33 → Option Point3 :=
  fun i => (f.get? i.val).join

/-- Source `posture_analyzer/landmarks.py`, `get_landmark_3d`, NumPy-array
branch: `none` when the index is out of range (the source also returns
None for a negative index, unreachable from the `ℕ`-typed call sites)
or the row has a NaN. -/
def get_landmark_3d (L : Fin 33 → Option Point3) (idx : ℕ) : Option Point3 :=
  if h : idx < 33 then L ⟨idx, h⟩ else none

/-- Source `posture_analyzer/landmarks.py`, `_is_valid`. -/
def is_valid (p : Option Point3) : Bool := p.isSome

/-- Source `posture_analyzer/landmarks.py`, `_safe_x`: the x coordinate of a
row, `none` when the row has a NaN. -/
def safe_x (L : Fin 33 → Option Point3) (i : Fin 33) : Option ℝ :=
  (L i).map (fun p => p.1)

/-- Source `posture_analyzer/angles.py`, `_angle_at`: same NaN / zero-norm
logic as `calculate_angle`, applied to three rows of the array. -/
def angle_at (L : Fin 33 → Option Point3) (i1 i2 i3 : Fin 33) : Option ℝ :=
  calculate_angle (L i1) (L i2) (L i3)

-- `posture_analyzer/landmarks.py`, class `PoseLandmark` constants.
namespace PoseLandmark

def NOSE : Fin 33 := 0
def LEFT_SHOULDER : Fin 33 := 11
def RIGHT_SHOULDER : Fin 33 := 12
def LEFT_ELBOW : Fin 33 := 13
def RIGHT_ELBOW : Fin 33 := 14
def LEFT_WRIST : Fin 33 := 15
def RIGHT_WRIST : Fin 33 := 16
def LEFT_HIP : Fin 33 := 23
def RIGHT_HIP : Fin 33 := 24
def LEFT_KNEE : Fin 33 := 25
def RIGHT_KNEE : Fin 33 := 26
def LEFT_ANKLE : Fin 33 := 27
def RIGHT_ANKLE : Fin 33 := 28
def LEFT_HEEL : Fin 33 := 29
def RIGHT_HEEL : Fin 33 := 30

end PoseLandmark

/-- The mean `np.mean` of a list (callers always guard for emptiness). -/
def listMean (xs : List ℝ) : ℝ := xs.sum / xs.length

/-- Python `min` of a list; the `0` default is never reached because
every caller guards with nonemptiness first. -/
def listMin : List ℝ → ℝ
  | [] => 0
  | x :: xs => xs.foldl min x

/-- Source `posture_analyzer/detect.py`, `_coalesce_angles`. -/
def coalesce_angles (vals : List (Option ℝ)) : List ℝ := vals.filterMap id

open PoseLandmark

/-- Local `knee_left` of `quick_detect_exercise`. -/
def qdKneeLeft (L : Fin 33 → Option Point3) : Option ℝ :=
  angle_at L LEFT_HIP LEFT_KNEE LEFT_ANKLE

/-- Local `knee_right` of `quick_detect_exercise`. -/
def qdKneeRight (L : Fin 33 → Option Point3) : Option ℝ :=
  angle_at L RIGHT_HIP RIGHT_KNEE RIGHT_ANKLE

/-- Local `body_left` of `quick_detect_exercise`. -/
def qdBodyLeft (L : Fin 33 → Option Point3) : Option ℝ :=
  angle_at L LEFT_SHOULDER LEFT_HIP LEFT_ANKLE

/-- Local `body_right` of `quick_detect_exercise`. -/
def qdBodyRight (L : Fin 33 → Option Point3) : Option ℝ :=
  angle_at L RIGHT_SHOULDER RIGHT_HIP RIGHT_ANKLE

/-- Local `elbow_left` of `quick_detect_exercise`. -/
def qdElbowLeft (L : Fin 33 → Option Point3) : Option ℝ :=
  angle_at L LEFT_SHOULDER LEFT_ELBOW LEFT_WRIST

/-- Local `elbow_right` of `quick_detect_exercise`. -/
def qdElbowRight (L : Fin 33 → Option Point3) : Option ℝ :=
  angle_at L RIGHT_SHOULDER RIGHT_ELBOW RIGHT_WRIST

/-- Local `bodies` of `quick_detect_exercise`. -/
def qdBodies (L : Fin 33 → Option Point3) : List ℝ :=
  coalesce_angles [qdBodyLeft L, qdBodyRight L]

/-- Local `knees` of `quick_detect_exercise`. -/
def qdKnees (L : Fin 33 → Option Point3) : List ℝ :=
  coalesce_angles [qdKneeLeft L, qdKneeRight L]

/-- Local `elbows` of `quick_detect_exercise`. -/
def qdElbows (L : Fin 33 → Option Point3) : List ℝ :=
  coalesce_angles [qdElbowLeft L, qdElbowRight L]

/-- Local `asym_angle` of `quick_detect_exercise`: left/right knee-angle
difference above 15 degrees, both defined. -/
def qdAsymAngle (L : Fin 33 → Option Point3) : Prop :=
  match qdKneeLeft L, qdKneeRight L with
  | some kl, some kr => |kl - kr| > 15
  | _, _ => False

/-- Local `asym_xy` of `quick_detect_exercise`: knee/ankle x offset above
0.06 on either side, with the involved x coordinates defined. -/
def qdAsymXY (L : Fin 33 → Option Point3) : Prop :=
  (match safe_x L LEFT_KNEE, safe_x L LEFT_ANKLE with
   | some lkx, some lax => |lkx - lax| > 0.06
   | _, _ => False) ∨
  (match safe_x L RIGHT_KNEE, safe_x L RIGHT_ANKLE with
   | some rkx, some rax => |rkx - rax| > 0.06
   | _, _ => False)

/-- Source `posture_analyzer/detect.py`, `quick_detect_exercise`: the
priority-ordered single-frame heuristic classifier. -/
def quick_detect_exercise (f : Frame) : Option String :=
  let L := landmarksToNp f
  if qdBodies L ≠ [] ∧ listMean (qdBodies L) ≥ 170 then
    if qdElbows L ≠ [] ∧ listMean (qdElbows L) < 160 then some "pushup"
    else some "plank"
  else if (qdKnees L).length = 2 ∧ ∀ k ∈ qdKnees L, k < 140 then some "squat"
  else if qdAsymAngle L ∨ qdAsymXY L then some "lunge"
  else if qdKnees L ≠ [] ∧ listMin (qdKnees L) ≥ 140 ∧
      qdBodies L ≠ [] ∧ listMean (qdBodies L) < 170 then some "deadlift"
  else none

/-- One mistake entry of a form report
(`{'issue': ..., 'severity': ..., 'fix': ...}`). -/
structure Mistake where
  issue : String
  severity : String
  fix : String
deriving DecidableEq

/-- A form report (`{'angles': ..., 'mistakes': ..., 'severity': ...}`);
the angles dict is kept as an insertion-ordered association list and may
store `none` values, as the source stores None angles. -/
structure FormReport where
  angles : List (String × Option ℝ)
  mistakes : List Mistake
  severity : String

/-- The knee-valgus mistake appended by `analyze_squat`. -/
def kneeValgusMistake : Mistake :=
  ⟨"Knee Valgus (knees caving inward)", "severe",
   "Push knees out over toes, strengthen glutes"⟩

/-- Source `posture_analyzer/analyzers/squat.py`, `analyze_squat`; each
rule check appends its mistake independently of the others. -/
def analyze_squat (f : Frame) : FormReport :=
  let L := landmarksToNp f
  let left_shoulder := get_landmark_3d L 11
  let right_shoulder := get_landmark_3d L 12
  let left_hip := get_landmark_3d L 23
  let right_hip := get_landmark_3d L 24
  let left_knee := get_landmark_3d L 25
  let right_knee := get_landmark_3d L 26
  let left_ankle := get_landmark_3d L 27
  let right_ankle := get_landmark_3d L 28
  let hip_angle_left := calculate_angle left_shoulder left_hip left_knee
  let hip_angle_right := calculate_angle right_shoulder right_hip right_knee
  let knee_angle_left := calculate_angle left_hip left_knee left_ankle
  let knee_angle_right := calculate_angle right_hip right_knee right_ankle
  let angles := [("hip_left", hip_angle_left), ("hip_right", hip_angle_right),
                 ("knee_left", knee_angle_left), ("knee_right", knee_angle_right)]
  let valgus :=
    (match knee_angle_left, knee_angle_right with
     | some _, some _ =>
       (match safe_x L LEFT_KNEE, safe_x L RIGHT_KNEE with
        | some lx, some rx =>
          if lx < rx then [kneeValgusMistake] else []
        | _, _ => [])
     | _, _ => [])
  let depth :=
    (match knee_angle_left, knee_angle_right with
     | some kl, some kr =>
       if kl > 120 ∧ kr > 120 then
         [⟨"Insufficient squat depth", "moderate",
           "Lower until thighs are parallel to floor"⟩]
       else []
     | _, _ => [])
  let lean :=
    (match hip_angle_left, hip_angle_right with
     | some hl, some hr =>
       if 0.5 * (hl + hr) > 160 then
         [⟨"Excessive forward lean", "moderate",
           "Keep chest up and back straight"⟩]
       else []
     | _, _ => [])
  let left_heel := get_landmark_3d L 29
  let right_heel := get_landmark_3d L 30
  let heels :=
    (match left_heel, right_heel, left_ankle, right_ankle with
     | some lh, some rh, some la, some ra =>
       if lh.2.2 > la.2.2 + 0.01 ∨ rh.2.2 > ra.2.2 + 0.01 then
         [⟨"Heels lifting off ground", "moderate",
           "Keep entire foot on ground, shift weight to heels"⟩]
       else []
     | _, _, _, _ => [])
  let mistakes := valgus ++ depth ++ lean ++ heels
  let severity :=
    if mistakes.any (fun m => m.severity = "severe") then "severe"
    else if mistakes ≠ [] then "moderate" else "good"
  ⟨angles, mistakes, severity⟩

/-- Push onto a deque with `maxlen = cap` (drop from the left). -/
def pushCap {α : Type} (cap : ℕ) (l : List α) (x : α) : List α :=
  let l2 := l ++ [x]
  if cap < l2.length then l2.drop (l2.length - cap) else l2

/-- One exercise profile of `ExerciseRecognizer._get_default_profiles`:
angle names, expected `(min, max)` ranges per angle type, weight. -/
structure ExProfile where
  key_angles : List String
  expected_ranges : List (String × ℝ × ℝ)
  weight : ℝ

/-- The squat entry of `ExerciseRecognizer._get_default_profiles`. -/
def squatProfile : ExProfile :=
  ⟨["left_knee", "right_knee", "left_hip", "right_hip"],
   [("knee", 80, 140), ("hip", 60, 120)], 1.0⟩

/-- The pushup entry of `_get_default_profiles`. -/
def pushupProfile : ExProfile :=
  ⟨["left_elbow", "right_elbow", "left_shoulder", "right_shoulder"],
   [("elbow", 60, 160), ("shoulder", 0, 45)], 1.0⟩

/-- The plank entry of `_get_default_profiles`. -/
def plankProfile : ExProfile :=
  ⟨["body_alignment_left", "body_alignment_right"],
   [("body_alignment", 160, 200)], 1.0⟩

/-- The lunge entry of `_get_default_profiles`. -/
def lungeProfile : ExProfile :=
  ⟨["left_knee", "right_knee", "left_hip", "right_hip",
    "body_alignment_left", "body_alignment_right"],
   [("knee", 60, 150), ("hip", 60, 120), ("body_alignment", 160, 200)], 1.2⟩

/-- The deadlift entry of `_get_default_profiles`. -/
def deadliftProfile : ExProfile :=
  ⟨["left_knee", "right_knee", "left_hip", "right_hip",
    "body_alignment_left", "body_alignment_right"],
   [("knee", 160, 180), ("hip", 120, 170), ("body_alignment", 150, 200)], 1.1⟩

/-- Source `ExerciseRecognizer._get_default_profiles` (insertion order
squat, pushup, plank, lunge, deadlift). -/
def default_profiles : List (String × ExProfile) :=
  [("squat", squatProfile), ("pushup", pushupProfile),
   ("plank", plankProfile), ("lunge", lungeProfile),
   ("deadlift", deadliftProfile)]

/-- A user profile object `{flexibility: ..., age: ...}`. -/
structure UserProfile where
  flexibility : Option String
  age : Option ℝ

/-- Source `ExerciseRecognizer._get_user_profiles`: a fresh copy of the
defaults; every expected range widened by 10 on each side when the
profile declares high flexibility. -/
def get_user_profiles (up : UserProfile) : List (String × ExProfile) :=
  default_profiles.map (fun ep =>
    if up.flexibility = some "high" then
      (ep.1, { ep.2 with expected_ranges :=
        ep.2.expected_ranges.map (fun r => (r.1, r.2.1 - 10, r.2.2 + 10)) })
    else ep)

/-- Source `ExerciseRecognizer.__init__` state (`defaultdict`s and deques
become association lists and capped lists). -/
structure RecState where
  confidence_threshold : ℝ
  min_frames : ℕ
  use_quick_detect : Bool
  smooth_window : ℕ
  exercise_scores : List (String × ℝ)
  current_exercise : Option String
  confidence : ℝ
  history : List String
  score_smooth : List (List (String × ℝ))
  last_phase : Option String
  exercise_profiles : List (String × ExProfile)

/-- A freshly constructed `ExerciseRecognizer`. -/
def initRecognizer (confidence_threshold : ℝ) (min_frames : ℕ)
    (use_quick_detect : Bool) (smooth_window : ℕ) : RecState :=
  ⟨confidence_threshold, min_frames, use_quick_detect, smooth_window,
   [], none, 0, [], [], none, default_profiles⟩

/-- Source `ExerciseRecognizer._update_history`: push the label once, or
three times in fast mode; the history deque has `maxlen = 30`. -/
def update_history (h : List String) (exercise : String) (fast_mode : Bool) :
    List String :=
  if fast_mode then
    pushCap 30 (pushCap 30 (pushCap 30 h exercise) exercise) exercise
  else pushCap 30 h exercise

/-- Structural substring search over character lists. -/
def hasSubList (pat : List Char) : List Char → Bool
  | [] => pat.isEmpty
  | x :: xs => pat.isPrefixOf (x :: xs) || hasSubList pat xs

/-- Substring containment, Python `pat in s`. -/
def strContains (s pat : String) : Bool := hasSubList pat.data s.data

/-- Source `ExerciseRecognizer._get_angle_type`. -/
def get_angle_type (angle_name : String) : String :=
  if strContains angle_name "knee" then "knee"
  else if strContains angle_name "hip" then "hip"
  else if strContains angle_name "elbow" then "elbow"
  else if strContains angle_name "shoulder" then "shoulder"
  else if strContains angle_name "body_alignment" then "body_alignment"
  else "other"

/-- Source `ExerciseRecognizer._calculate_key_angles`: the observed
angles, in insertion order, only the defined ones. -/
def calculate_key_angles (f : Frame) : List (String × ℝ) :=
  let L := landmarksToNp f
  let add := fun (name : String) (i1 i2 i3 : Fin 33) =>
    match calculate_angle (get_landmark_3d L i1) (get_landmark_3d L i2)
        (get_landmark_3d L i3) with
    | some a => [(name, a)]
    | none => []
  add "left_knee" LEFT_HIP LEFT_KNEE LEFT_ANKLE ++
  add "right_knee" RIGHT_HIP RIGHT_KNEE RIGHT_ANKLE ++
  add "left_hip" LEFT_SHOULDER LEFT_HIP LEFT_KNEE ++
  add "right_hip" RIGHT_SHOULDER RIGHT_HIP RIGHT_KNEE ++
  add "left_elbow" LEFT_SHOULDER LEFT_ELBOW LEFT_WRIST ++
  add "right_elbow" RIGHT_SHOULDER RIGHT_ELBOW RIGHT_WRIST ++
  add "body_alignment_left" LEFT_SHOULDER LEFT_HIP LEFT_ANKLE ++
  add "body_alignment_right" RIGHT_SHOULDER RIGHT_HIP RIGHT_ANKLE

/-- One angle's contribution to a profile's score and weight (one
iteration of the inner loop of `_calculate_exercise_scores`). -/
def scoreStep (prof : ExProfile) (acc : ℝ × ℝ) (av : String × ℝ) : ℝ × ℝ :=
  match prof.expected_ranges.lookup (get_angle_type av.1) with
  | some r =>
    let contrib :=
      if r.1 ≤ av.2 ∧ av.2 ≤ r.2 then 1
      else max 0 (1 - min |av.2 - r.1| |av.2 - r.2| / 90)
    (acc.1 + contrib, acc.2 + 1)
  | none => acc

/-- Score and weight accumulated by one profile over the observed
angles (the inner loop of `_calculate_exercise_scores`). -/
def profileScoreWeight (prof : ExProfile) (angles : List (String × ℝ)) :
    ℝ × ℝ :=
  angles.foldl (scoreStep prof) (0, 0)

/-- Source `ExerciseRecognizer._calculate_exercise_scores`: profiles with
no matching angle type are left out of the score dict. -/
def calculate_exercise_scores (profiles : List (String × ExProfile))
    (angles : List (String × ℝ)) : List (String × ℝ) :=
  profiles.filterMap (fun ep =>
    let sw := profileScoreWeight ep.2 angles
    if 0 < sw.2 then some (ep.1, sw.1 / sw.2 * ep.2.weight) else none)

/-- Add `v` to key `k` of an insertion-ordered accumulator dict
(`summed[k] += v` on a `defaultdict(float)`). -/
def dictAdd (acc : List (String × ℝ)) (k : String) (v : ℝ) :
    List (String × ℝ) :=
  if (acc.lookup k).isSome then
    acc.map (fun kv => if kv.1 = k then (kv.1, kv.2 + v) else kv)
  else acc ++ [(k, v)]

/-- Source `ExerciseRecognizer._get_smoothed_scores`. -/
def get_smoothed_scores (score_smooth : List (List (String × ℝ))) :
    List (String × ℝ) :=
  if score_smooth = [] then []
  else
    let summed := score_smooth.foldl
      (fun acc d => d.foldl (fun acc kv => dictAdd acc kv.1 kv.2) acc) []
    summed.map (fun kv => (kv.1, kv.2 / score_smooth.length))

/-- Python `max(items, key=value)`: the first item with maximal value. -/
def maxBySnd : List (String × ℝ) → Option (String × ℝ)
  | [] => none
  | x :: xs => some (xs.foldl (fun b y => if y.2 > b.2 then y else b) x)

/-- Source `ExerciseRecognizer._detect_phase`; the Python truthiness
test `if k` keeps only nonzero knee angles. -/
def detect_phase (profiles : List (String × ExProfile))
    (angles : List (String × ℝ)) (exercise : String) : String :=
  match profiles.lookup exercise with
  | none => "unk"
  | some prof =>
    match prof.expected_ranges.lookup "knee" with
    | none => "unk"
    | some r =>
      let any_knee := [(angles.lookup "left_knee").getD 0,
                       (angles.lookup "right_knee").getD 0]
      let valids := any_knee.filter (fun k => k ≠ 0)
      if valids = [] then "unk"
      else
        let mean_knee := valids.sum / valids.length
        if mean_knee < r.1 + 10 then "end"
        else if mean_knee > r.2 - 10 then "init"
        else "mid"

/-- One step of filling the label-count dict (`counts[ex] += 1`). -/
def countsStep (acc : List (String × ℕ)) (x : String) : List (String × ℕ) :=
  if (acc.lookup x).isSome then
    acc.map (fun kv => if kv.1 = x then (kv.1, kv.2 + 1) else kv)
  else acc ++ [(x, 1)]

/-- Occurrence counts of the history labels, in first-appearance order
(a `defaultdict(int)` filled by iterating the deque). -/
def countsList (l : List String) : List (String × ℕ) :=
  l.foldl countsStep []

/-- Python `max(counts.items(), key=count)`: first maximum wins. -/
def maxBySndNat : List (String × ℕ) → Option (String × ℕ)
  | [] => none
  | x :: xs => some (xs.foldl (fun b y => if y.2 > b.2 then y else b) x)

/-- Source `ExerciseRecognizer._update_confidence`, acting on the
`(current_exercise, confidence)` pair. -/
def update_confidence (s : RecState) : RecState :=
  if s.history = [] then { s with confidence := 0 }
  else
    match maxBySndNat (countsList s.history) with
    | none => { s with confidence := 0 }
    | some mc =>
      let freq : ℝ := (mc.2 : ℝ) / (s.history.length : ℝ)
      let conf :=
        if s.current_exercise.isSome ∧ s.current_exercise ≠ some mc.1 then
          freq * 0.7
        else min 1 (freq * 1.1)
      let cur :=
        if freq ≥ s.confidence_threshold then some mc.1 else s.current_exercise
      { s with confidence := conf, current_exercise := cur }

/-- The fatigue-penalty step of `recognize`
(`if fatigue_score is not None and fatigue_score > 0.8`). -/
def applyFatiguePenalty (s : RecState) (fatigue_score : Option ℝ) : RecState :=
  match fatigue_score with
  | some fs =>
    if fs > 0.8 then { s with confidence := max 0 (s.confidence - 0.2) } else s
  | none => s

/-- The tail of `recognize` once a best exercise has been chosen:
history push, conditional confidence update, fatigue penalty, phase. -/
def recognizeBest (s : RecState) (angles : List (String × ℝ))
    (best : String × ℝ) (fatigue_score : Option ℝ) :
    (Option String × ℝ × Option String) × RecState :=
  let s1 := { s with history := update_history s.history best.1 false }
  let s2 := if s1.min_frames ≤ s1.history.length then update_confidence s1 else s1
  let s3 := applyFatiguePenalty s2 fatigue_score
  let phase := detect_phase s3.exercise_profiles angles best.1
  ((s3.current_exercise, s3.confidence, some phase),
   { s3 with last_phase := some phase })

/-- The tail of `ExerciseRecognizer.recognize` after the quick-detect
bootstrap block: scoring, smoothing, history/confidence update, fatigue
penalty, phase detection. -/
def recognizeMain (s : RecState) (fr : Frame) (fatigue_score : Option ℝ) :
    (Option String × ℝ × Option String) × RecState :=
  let angles := calculate_key_angles fr
  if angles = [] then ((s.current_exercise, s.confidence, s.last_phase), s)
  else
    let scores := calculate_exercise_scores s.exercise_profiles angles
    let s1 := { s with score_smooth := pushCap s.smooth_window s.score_smooth scores }
    let smooth_scores := get_smoothed_scores s1.score_smooth
    if smooth_scores = [] then ((none, 0, s1.last_phase), s1)
    else
      match maxBySnd smooth_scores with
      | none => ((none, 0, s1.last_phase), s1)
      | some best => recognizeBest s1 angles best fatigue_score

/-- The body of `recognize` on a present frame: quick-detect bootstrap
block, then the main scoring path. -/
def recognizeFrame (s : RecState) (fr : Frame) (fatigue_score : Option ℝ) :
    (Option String × ℝ × Option String) × RecState :=
  match (if s.use_quick_detect ∧
           (s.current_exercise = none ∨ s.confidence < 0.5) then
           quick_detect_exercise fr else none) with
  | some q =>
    -- Python: `if quick_result and quick_result in self.exercise_profiles`
    if q ≠ "" ∧ (s.exercise_profiles.lookup q).isSome then
      let s1 := { s with history := update_history s.history q true }
      if s1.min_frames / 2 ≤ s1.history.length then
        ((some q, 0.8, some "init"),
         { s1 with current_exercise := some q, confidence := 0.8,
                   last_phase := some "init" })
      else recognizeMain s1 fr fatigue_score
    else recognizeMain s fr fatigue_score
  | none => recognizeMain s fr fatigue_score

/-- Source `ExerciseRecognizer.recognize`: returns the
`(label, confidence, phase)` triple and the successor state. -/
def recognize (s0 : RecState) (f : Option Frame) (fatigue_score : Option ℝ)
    (user_profile : Option UserProfile) :
    (Option String × ℝ × Option String) × RecState :=
  let s := match user_profile with
    | some up => { s0 with exercise_profiles := get_user_profiles up }
    | none => s0
  match f with
  | none => ((s.current_exercise, s.confidence, s.last_phase), s)
  | some fr => recognizeFrame s fr fatigue_score

/-- Repeatedly calling `recognize` with one fixed frame (no fatigue
score, no user profile); returns the last call's output triple and the
recognizer state. -/
def recognizeRun (s : RecState) (f : Frame) :
    ℕ → (Option String × ℝ × Option String) × RecState
  | 0 => ((s.current_exercise, s.confidence, s.last_phase), s)
  | n + 1 => recognize (recognizeRun s f n).2 (some f) none none

/-- A raw landmark list as received by `FatigueAnalyzer.update`: the
objects carry numeric `x`, `y`, `z` fields, so missingness arises from
the list being short (the list branch of `get_landmark_3d` returns None
exactly for a falsy list or an out-of-range index). -/
abbrev RawFrame : Type := List Point3

/-- Source `posture_analyzer/landmarks.py`, `get_landmark_3d`, list
branch: `None` iff the collection is falsy (empty) or the index out of
range. -/
def get_landmark_3d_raw (f : RawFrame) (idx : ℕ) : Option Point3 :=
  if f.length = 0 ∨ f.length ≤ idx then none else f.get? idx

/-- The `key_indices` list of `FatigueAnalyzer._extract_key_points`:
shoulders, hips, knees, ankles, elbows. -/
def key_indices : List ℕ := [11, 12, 23, 24, 25, 26, 27, 28, 13, 14]

/-- One extracted pose: the dict from key-joint index to its point, in
`key_indices` insertion order. -/
abbrev Pose : Type := List (ℕ × Point3)

/-- Source `FatigueAnalyzer._extract_key_points`: all 10 key joints or
nothing. -/
def extract_key_points (f : RawFrame) : Option Pose :=
  let pts := key_indices.filterMap
    (fun idx => (get_landmark_3d_raw f idx).map (fun p => (idx, p)))
  if pts.length = key_indices.length then some pts else none

/-- Consecutive pairs `(l[i-1], l[i])` of a list. -/
def consecPairs {α : Type} (l : List α) : List (α × α) := l.zip l.tail

/-- Source `FatigueAnalyzer._calculate_joint_variation` over an explicit
pose history (oldest first). -/
def calculate_joint_variation (hist : List Pose) (joint1 joint2 : ℕ) : ℝ :=
  if hist.length < 2 then 0
  else
    let variations := (consecPairs hist).filterMap (fun pc =>
      match pc.1.lookup joint1, pc.2.lookup joint1,
            pc.1.lookup joint2, pc.2.lookup joint2 with
      | some p1, some c1, some p2, some c2 =>
        let prev_dist := pnorm (psub p1 p2)
        let curr_dist := pnorm (psub c1 c2)
        some (|curr_dist - prev_dist| / (prev_dist + 1e-8))
      | _, _, _, _ => none)
    if variations = [] then 0 else listMean variations * 100

/-- Source `FatigueAnalyzer._calculate_velocity`. -/
def calculate_velocity (hist : List Pose) : ℝ :=
  if hist.length < 2 then 0
  else
    let velocities := (consecPairs hist).flatMap (fun pc =>
      pc.2.filterMap (fun kv =>
        match pc.1.lookup kv.1 with
        | some w => some (pnorm (psub kv.2 w))
        | none => none))
    if velocities = [] then 0 else min (listMean velocities * 5) 1

/-- Source `FatigueAnalyzer._calculate_early_fatigue`: left-shoulder
jitter over the window. -/
def calculate_early_fatigue (hist : List Pose) : ℝ :=
  if hist.length < 4 then 0
  else
    let left_shoulder := hist.filterMap (fun pose => pose.lookup 11)
    if left_shoulder.length < 4 then 0
    else
      let jitter :=
        ((consecPairs left_shoulder).map (fun ab => pnorm (psub ab.2 ab.1))).sum
      min (jitter * 2) 1

/-- Source `FatigueAnalyzer._adapt_threshold`: the Python
`user_profile.get('age', 30)` default. -/
def adapt_threshold (base : ℝ) (up : UserProfile) : ℝ :=
  let age := up.age.getD 30
  if age < 20 then base + 0.03
  else if age > 40 then base - 0.03
  else base

/-- The eight entries of the `fatigue_scores` dict. -/
structure FScores where
  shoulder_stability : ℝ
  core_stability : ℝ
  knee_stability : ℝ
  elbow_stability : ℝ
  ankle_stability : ℝ
  velocity : ℝ
  early_fatigue : ℝ
  overall : ℝ

/-- The all-zero scores installed by `FatigueAnalyzer.__init__`. -/
def zeroScores : FScores := ⟨0, 0, 0, 0, 0, 0, 0, 0⟩

/-- Source `FatigueAnalyzer.__init__` state. -/
structure FatState where
  window_size : ℕ
  default_threshold : ℝ
  dynamic : Bool
  pose_history : List Pose
  fatigue_scores : FScores
  dynamic_threshold : ℝ

/-- A freshly constructed `FatigueAnalyzer`. -/
def initFatigue (window_size : ℕ) (threshold : ℝ) (dynamic : Bool) : FatState :=
  ⟨window_size, threshold, dynamic, [], zeroScores, threshold⟩

/-- Source `FatigueAnalyzer.update`: returns the scores dict and the
successor state. -/
def fupdate (s : FatState) (f : RawFrame) (user_profile : Option UserProfile) :
    FScores × FatState :=
  match extract_key_points f with
  | none => (s.fatigue_scores, s)
  | some current_pose =>
    let hist := pushCap s.window_size s.pose_history current_pose
    let s := { s with pose_history := hist }
    if hist.length < 2 then (s.fatigue_scores, s)
    else
      let sh := min (calculate_joint_variation hist 11 12 / 5) 1
      let co := min (calculate_joint_variation hist 23 24 / 4) 1
      let kn := min (calculate_joint_variation hist 25 26 / 3) 1
      let el := min (calculate_joint_variation hist 13 14 / 3) 1
      let an := min (calculate_joint_variation hist 27 28 / 3) 1
      let vel := calculate_velocity hist
      let ef := calculate_early_fatigue hist
      let thr :=
        match user_profile with
        | some up => if s.dynamic then adapt_threshold s.default_threshold up
                     else s.default_threshold
        | none => s.default_threshold
      let overall := (sh + co + kn + vel + ef) / 5
      let scores : FScores := ⟨sh, co, kn, el, an, vel, ef, overall⟩
      (scores, { s with fatigue_scores := scores, dynamic_threshold := thr })

/-- Source `FatigueAnalyzer.is_fatigued`. -/
def is_fatigued (s : FatState) : Prop :=
  s.fatigue_scores.overall > s.dynamic_threshold

/-- A frame containing only the two knee landmarks (indices 25, 26),
with the left knee strictly to the left of the right knee. -/
def frameKneesOnly : Frame :=
  List.replicate 25 none ++ [some ((0 : ℝ), (0 : ℝ), (0 : ℝ)),
    some ((1 : ℝ), (0 : ℝ), (0 : ℝ))]

/-- A frame with hips, knees and ankles present (ankle placed at the hip
position, so both knee angles are defined and equal 0 degrees), left
knee x = 0 < 1 = right knee x, and every other landmark missing. -/
def frameSquatKnees : Frame :=
  List.replicate 23 none ++
  [some ((0 : ℝ), (0 : ℝ), (0 : ℝ)),   -- 23 LEFT_HIP
   some ((1 : ℝ), (0 : ℝ), (0 : ℝ)),   -- 24 RIGHT_HIP
   some ((0 : ℝ), (1 : ℝ), (0 : ℝ)),   -- 25 LEFT_KNEE
   some ((1 : ℝ), (1 : ℝ), (0 : ℝ)),   -- 26 RIGHT_KNEE
   some ((0 : ℝ), (0 : ℝ), (0 : ℝ)),   -- 27 LEFT_ANKLE
   some ((1 : ℝ), (0 : ℝ), (0 : ℝ))]   -- 28 RIGHT_ANKLE

/-- A frame with the left shoulder, left hip, left knee and left ankle
present, hip-knee-ankle collinear (left knee angle 180 degrees), the
shoulder on the hip-ankle ray (left body-alignment angle 0 degrees),
and the whole right side missing. -/
def frameDeadliftLeft : Frame :=
  List.replicate 11 none ++
  [some ((0 : ℝ), (3 : ℝ), (0 : ℝ))] ++    -- 11 LEFT_SHOULDER
  List.replicate 11 none ++
  [some ((0 : ℝ), (0 : ℝ), (0 : ℝ)),       -- 23 LEFT_HIP
   none,                                    -- 24
   some ((0 : ℝ), (1 : ℝ), (0 : ℝ)),       -- 25 LEFT_KNEE
   none,                                    -- 26
   some ((0 : ℝ), (2 : ℝ), (0 : ℝ))]       -- 27 LEFT_ANKLE

/-! ### Helper lemmas -/

theorem degArccos_nonneg (c : ℝ) : 0 ≤ degArccos c := by
  have h1 : (0 : ℝ) ≤ 180 / Real.pi := by positivity
  exact mul_nonneg h1 (Real.arccos_nonneg c)

theorem degArccos_le (c : ℝ) : degArccos c ≤ 180 := by
  have hpi : (0 : ℝ) < Real.pi := Real.pi_pos
  have h1 : (0 : ℝ) ≤ 180 / Real.pi := by positivity
  have h2 : degArccos c ≤ 180 / Real.pi * Real.pi :=
    mul_le_mul_of_nonneg_left (Real.arccos_le_pi c) h1
  calc degArccos c ≤ 180 / Real.pi * Real.pi := h2
    _ = 180 := div_mul_cancel₀ 180 hpi.ne'

theorem clipCos_one : clipCos 1 = 1 := by
  simp [clipCos]

theorem clipCos_neg_one : clipCos (-1) = -1 := by
  simp [clipCos]

theorem degArccos_one : degArccos 1 = 0 := by
  simp [degArccos, Real.arccos_one]

theorem degArccos_neg_one : degArccos (-1) = 180 := by
  rw [degArccos, Real.arccos_neg_one]
  exact div_mul_cancel₀ 180 Real.pi_pos.ne'

theorem pnorm_eq_of_sq {p : Point3} {r : ℝ} (hr : 0 ≤ r)
    (h : pdot p p = r ^ 2) : pnorm p = r := by
  rw [pnorm, h, Real.sqrt_sq hr]

theorem pnorm_ne_zero {p : Point3} {r : ℝ} (hr : 0 < r)
    (h : pdot p p = r ^ 2) : pnorm p ≠ 0 := by
  rw [pnorm_eq_of_sq hr.le h]
  exact hr.ne'

theorem calculate_angle_some {a b c : Point3}
    (h1 : pnorm (psub a b) ≠ 0) (h2 : pnorm (psub c b) ≠ 0) :
    calculate_angle (some a) (some b) (some c) =
      some (degArccos (clipCos (pdot (psub a b) (psub c b) /
        (pnorm (psub a b) * pnorm (psub c b))))) := by
  simp only [calculate_angle]
  rw [if_neg]
  push_neg
  exact ⟨h1, h2⟩

theorem pdot_comm (p q : Point3) : pdot p q = pdot q p := by
  simp only [pdot]
  ring

theorem filterMap_length_eq {α β : Type} (g : α → Option β) :
    ∀ l : List α, (l.filterMap g).length = l.length → ∀ a ∈ l, (g a).isSome := by
  intro l
  induction l with
  | nil => simp
  | cons x t ih =>
    intro hlen a ha
    cases hgx : g x with
    | none =>
      exfalso
      rw [List.filterMap_cons_none hgx] at hlen
      have := List.length_filterMap_le g t
      simp only [List.length_cons] at hlen
      omega
    | some b =>
      rw [List.filterMap_cons_some hgx] at hlen
      simp only [List.length_cons, Nat.add_left_inj] at hlen
      rcases List.mem_cons.mp ha with h | h
      · rw [h, hgx]
        rfl
      · exact ih hlen a h

theorem extract_key_points_eq_none {f : RawFrame}
    (h : ∃ i ∈ key_indices, get_landmark_3d_raw f i = none) :
    extract_key_points f = none := by
  unfold extract_key_points
  dsimp only
  rw [if_neg]
  intro hlen
  obtain ⟨i, hi, hnone⟩ := h
  have := filterMap_length_eq _ key_indices hlen i hi
  rw [hnone] at this
  simp at this

theorem mem_keys_filterMapIdx {β : Type} (h : ℕ → Option β)
    (t : List ℕ) (k : ℕ) (v : β)
    (hm : (k, v) ∈ t.filterMap (fun i => (h i).map (fun p => (i, p)))) :
    k ∈ t := by
  rcases List.mem_filterMap.mp hm with ⟨a, ha, hg⟩
  cases hha : h a with
  | none =>
    rw [hha] at hg
    simp at hg
  | some b =>
    rw [hha] at hg
    simp only [Option.map_some', Option.some.injEq, Prod.mk.injEq] at hg
    rw [← hg.1]
    exact ha

theorem keys_filterMapIdx_nodup {β : Type} (h : ℕ → Option β) :
    ∀ t : List ℕ, t.Nodup →
      ((t.filterMap (fun i => (h i).map (fun p => (i, p)))).map Prod.fst).Nodup := by
  intro t
  induction t with
  | nil => simp
  | cons x tt ih =>
    intro hnd
    rcases List.nodup_cons.mp hnd with ⟨hx, hnd2⟩
    cases hhx : h x with
    | none =>
      rw [List.filterMap_cons_none (by rw [hhx]; rfl)]
      exact ih hnd2
    | some b =>
      rw [List.filterMap_cons_some (by rw [hhx]; rfl)]
      simp only [List.map_cons]
      refine List.nodup_cons.mpr ⟨?_, ih hnd2⟩
      intro hmem
      rcases List.mem_map.mp hmem with ⟨⟨k, v⟩, hkv, hfst⟩
      dsimp only at hfst
      rw [← hfst] at hx
      exact hx (mem_keys_filterMapIdx h tt k v hkv)

theorem lookup_of_mem_nodup {β : Type} :
    ∀ (l : List (ℕ × β)), (l.map Prod.fst).Nodup → ∀ (k : ℕ) (v : β),
      (k, v) ∈ l → l.lookup k = some v := by
  intro l
  induction l with
  | nil => simp
  | cons kv t ih =>
    intro hnd k v hm
    rw [List.map_cons] at hnd
    rcases List.nodup_cons.mp hnd with ⟨hk, hnd2⟩
    rcases List.mem_cons.mp hm with h | h
    · rw [← h]
      exact List.lookup_cons_self
    · have hkmem : k ∈ t.map Prod.fst :=
        List.mem_map.mpr ⟨(k, v), h, rfl⟩
      have hne : k ≠ kv.1 := by
        intro he
        rw [← he] at hk
        exact hk hkmem
      cases kv with
      | mk k1 v1 =>
        have : ((k1, v1) :: t).lookup k = t.lookup k := by
          simp [List.lookup, beq_eq_false_iff_ne.mpr hne]
        rw [this]
        exact ih hnd2 k v h

theorem extract_coherent {f : RawFrame} {p : Pose}
    (hp : extract_key_points f = some p) :
    ∀ kv ∈ p, p.lookup kv.1 = some kv.2 := by
  unfold extract_key_points at hp
  dsimp only at hp
  split at hp
  · intro kv hkv
    have hps := Option.some.inj hp
    have hnodup : (p.map Prod.fst).Nodup := by
      rw [← hps]
      exact keys_filterMapIdx_nodup _ key_indices (by decide)
    cases kv with
    | mk k v => exact lookup_of_mem_nodup p hnodup k v hkv
  · exact absurd hp (by simp)

theorem consecPairs_replicate {α : Type} (n : ℕ) (p : α) :
    consecPairs (List.replicate n p) = List.replicate (n - 1) (p, p) := by
  unfold consecPairs
  rw [List.tail_replicate, List.zip_replicate]
  congr 1
  omega

theorem listMean_zero {l : List ℝ} (h : ∀ x ∈ l, x = 0) : listMean l = 0 := by
  unfold listMean
  rw [List.sum_eq_zero h, zero_div]

theorem joint_variation_replicate (n : ℕ) (p : Pose) (j1 j2 : ℕ) :
    calculate_joint_variation (List.replicate n p) j1 j2 = 0 := by
  unfold calculate_joint_variation
  by_cases hn : (List.replicate n p).length < 2
  · rw [if_pos hn]
  · rw [if_neg hn]
    dsimp only
    rw [consecPairs_replicate]
    have hz : ∀ v ∈ (List.replicate (n - 1) ((p, p) : Pose × Pose)).filterMap
        (fun pc => match pc.1.lookup j1, pc.2.lookup j1,
            pc.1.lookup j2, pc.2.lookup j2 with
          | some p1, some c1, some p2, some c2 =>
            some (|pnorm (psub c1 c2) - pnorm (psub p1 p2)| /
              (pnorm (psub p1 p2) + 1e-8))
          | _, _, _, _ => none), v = 0 := by
      intro v hv
      rcases List.mem_filterMap.mp hv with ⟨pc, hpc, hFv⟩
      rw [List.eq_of_mem_replicate hpc] at hFv
      dsimp only at hFv
      cases h1 : p.lookup j1 with
      | none => rw [h1] at hFv; simp at hFv
      | some a =>
        cases h2 : p.lookup j2 with
        | none => rw [h1, h2] at hFv; simp at hFv
        | some b =>
          rw [h1, h2] at hFv
          simp only [sub_self, abs_zero, zero_div, Option.some.injEq] at hFv
          exact hFv.symm
    by_cases hv : (List.replicate (n - 1) ((p, p) : Pose × Pose)).filterMap
        (fun pc => match pc.1.lookup j1, pc.2.lookup j1,
            pc.1.lookup j2, pc.2.lookup j2 with
          | some p1, some c1, some p2, some c2 =>
            some (|pnorm (psub c1 c2) - pnorm (psub p1 p2)| /
              (pnorm (psub p1 p2) + 1e-8))
          | _, _, _, _ => none) = []
    · rw [if_pos hv]
    · rw [if_neg hv, listMean_zero hz, zero_mul]

theorem pnorm_self_zero (a : Point3) : pnorm (psub a a) = 0 := by
  have h : psub a a = ((0 : ℝ), (0 : ℝ), (0 : ℝ)) := by
    simp [psub]
  rw [h, pnorm]
  norm_num [pdot]

theorem velocity_replicate (n : ℕ) (p : Pose)
    (hcoh : ∀ kv ∈ p, p.lookup kv.1 = some kv.2) :
    calculate_velocity (List.replicate n p) = 0 := by
  unfold calculate_velocity
  by_cases hn : (List.replicate n p).length < 2
  · rw [if_pos hn]
  · rw [if_neg hn]
    dsimp only
    rw [consecPairs_replicate]
    have hz : ∀ v ∈ (List.replicate (n - 1) ((p, p) : Pose × Pose)).flatMap
        (fun pc => pc.2.filterMap (fun kv =>
          match pc.1.lookup kv.1 with
          | some w => some (pnorm (psub kv.2 w))
          | none => none)), v = 0 := by
      intro v hv
      rcases List.exists_of_mem_flatMap hv with ⟨pc, hpc, hvm⟩
      rw [List.eq_of_mem_replicate hpc] at hvm
      dsimp only at hvm
      rcases List.mem_filterMap.mp hvm with ⟨kv, hkv, hsome⟩
      rw [hcoh kv hkv] at hsome
      simp only [pnorm_self_zero, Option.some.injEq] at hsome
      exact hsome.symm
    by_cases hv : (List.replicate (n - 1) ((p, p) : Pose × Pose)).flatMap
        (fun pc => pc.2.filterMap (fun kv =>
          match pc.1.lookup kv.1 with
          | some w => some (pnorm (psub kv.2 w))
          | none => none)) = []
    · rw [if_pos hv]
    · rw [if_neg hv, listMean_zero hz, zero_mul]
      exact min_eq_left zero_le_one

theorem early_fatigue_replicate (n : ℕ) (p : Pose) :
    calculate_early_fatigue (List.replicate n p) = 0 := by
  unfold calculate_early_fatigue
  by_cases hn : (List.replicate n p).length < 4
  · rw [if_pos hn]
  · rw [if_neg hn]
    dsimp only
    cases hl : p.lookup 11 with
    | none =>
      rw [List.filterMap_replicate_of_none hl]
      simp
    | some x =>
      rw [List.filterMap_replicate_of_some hl]
      rw [if_neg (by simpa using hn)]
      rw [consecPairs_replicate]
      have hsum : ((List.replicate (n - 1) ((x, x) : Point3 × Point3)).map
          (fun ab => pnorm (psub ab.2 ab.1))).sum = 0 := by
        apply List.sum_eq_zero
        intro v hv
        rcases List.mem_map.mp hv with ⟨ab, hab, hvv⟩
        rw [List.eq_of_mem_replicate hab] at hvv
        rw [← hvv]
        exact pnorm_self_zero x
      rw [hsum, zero_mul]
      exact min_eq_left zero_le_one

theorem pushCap_of_le {α : Type} (cap : ℕ) (l : List α) (x : α)
    (h : l.length + 1 ≤ cap) : pushCap cap l x = l ++ [x] := by
  unfold pushCap
  rw [if_neg]
  simp only [List.length_append, List.length_cons, List.length_nil]
  omega

theorem fupdate_same (s : FatState) (f : RawFrame) (p : Pose) (m : ℕ)
    (hp : extract_key_points f = some p)
    (hcoh : ∀ kv ∈ p, p.lookup kv.1 = some kv.2)
    (hist : s.pose_history = List.replicate m p)
    (hsc : s.fatigue_scores = zeroScores)
    (hm : m + 1 ≤ s.window_size) :
    (fupdate s f none).1 = zeroScores ∧
    (fupdate s f none).2.pose_history = List.replicate (m + 1) p ∧
    (fupdate s f none).2.fatigue_scores = zeroScores ∧
    (fupdate s f none).2.window_size = s.window_size := by
  unfold fupdate
  rw [hp]
  dsimp only
  rw [hist, pushCap_of_le s.window_size (List.replicate m p) p
    (by simpa using hm), ← List.replicate_succ']
  by_cases h2 : (List.replicate (m + 1) p).length < 2
  · rw [if_pos h2]
    exact ⟨hsc, rfl, hsc, rfl⟩
  · rw [if_neg h2]
    dsimp only
    rw [joint_variation_replicate, joint_variation_replicate,
      joint_variation_replicate, joint_variation_replicate,
      joint_variation_replicate, velocity_replicate _ _ hcoh,
      early_fatigue_replicate]
    refine ⟨?_, rfl, ?_, rfl⟩ <;>
      (show (⟨_, _, _, _, _, _, _, _⟩ : FScores) = zeroScores
       unfold zeroScores
       norm_num)

/-- The pose window evolution: `n` successive `update` calls with the
same frame from a given fatigue-analyzer state. -/
def fupdateRun (s : FatState) (f : RawFrame) : ℕ → FatState
  | 0 => s
  | n + 1 => (fupdate (fupdateRun s f n) f none).2

/-! ### Claims -/

/-- C7: for three present points forming two vectors of nonzero norm,
`calculate_angle` is symmetric in its outer arguments and its value
lies in the interval [0, 180]. -/
theorem C7_angle_symm_and_range (a b c : Point3)
    (h1 : pnorm (psub a b) ≠ 0) (h2 : pnorm (psub c b) ≠ 0) :
    calculate_angle (some a) (some b) (some c) =
      calculate_angle (some c) (some b) (some a) ∧
    ∃ θ, calculate_angle (some a) (some b) (some c) = some θ ∧
      0 ≤ θ ∧ θ ≤ 180 := by
  constructor
  · rw [calculate_angle_some h1 h2, calculate_angle_some h2 h1,
      pdot_comm (psub c b) (psub a b), mul_comm (pnorm (psub c b)) (pnorm (psub a b))]
  · exact ⟨_, calculate_angle_some h1 h2, degArccos_nonneg _, degArccos_le _⟩

/-- Witness for C7 at the concrete points (1,0,0), (0,0,0), (0,1,0). -/
theorem C7_angle_symm_and_range_witness :
    calculate_angle (some ((1 : ℝ), (0 : ℝ), (0 : ℝ))) (some (0, 0, 0))
        (some (0, 1, 0)) =
      calculate_angle (some ((0 : ℝ), (1 : ℝ), (0 : ℝ))) (some (0, 0, 0))
        (some (1, 0, 0)) ∧
    ∃ θ, calculate_angle (some ((1 : ℝ), (0 : ℝ), (0 : ℝ))) (some (0, 0, 0))
        (some (0, 1, 0)) = some θ ∧ 0 ≤ θ ∧ θ ≤ 180 :=
  C7_angle_symm_and_range (1, 0, 0) (0, 0, 0) (0, 1, 0)
    (pnorm_ne_zero one_pos (by simp [pdot, psub]))
    (pnorm_ne_zero one_pos (by simp [pdot, psub]))

theorem countsStep_bound {acc : List (String × ℕ)} {m : ℕ}
    (h : ∀ kv ∈ acc, kv.2 ≤ m) (x : String) :
    ∀ kv ∈ countsStep acc x, kv.2 ≤ m + 1 := by
  intro kv hkv
  unfold countsStep at hkv
  split at hkv
  · rcases List.mem_map.mp hkv with ⟨kv0, hkv0, heq⟩
    have hb := h kv0 hkv0
    by_cases hx : kv0.1 = x
    · rw [if_pos hx] at heq
      subst heq
      simpa using Nat.add_le_add_right hb 1
    · rw [if_neg hx] at heq
      subst heq
      exact hb.trans (Nat.le_succ m)
  · rcases List.mem_append.mp hkv with hkv | hkv
    · exact (h kv hkv).trans (Nat.le_succ m)
    · simp only [List.mem_singleton] at hkv
      subst hkv
      omega

theorem countsList_bound (l : List String) :
    ∀ kv ∈ countsList l, kv.2 ≤ l.length := by
  suffices h : ∀ (acc : List (String × ℕ)) (m : ℕ),
      (∀ kv ∈ acc, kv.2 ≤ m) →
      ∀ kv ∈ l.foldl countsStep acc, kv.2 ≤ m + l.length by
    intro kv hkv
    simpa using h [] 0 (by simp) kv hkv
  induction l with
  | nil => intro acc m hm kv hkv; simpa using hm kv hkv
  | cons x t ih =>
    intro acc m hm kv hkv
    have := ih (countsStep acc x) (m + 1) (countsStep_bound hm x) kv hkv
    simp only [List.length_cons]
    omega

theorem foldl_choice_mem {α : Type} (g : α → α → α)
    (hg : ∀ b y, g b y = b ∨ g b y = y) :
    ∀ (xs : List α) (b : α), xs.foldl g b ∈ b :: xs := by
  intro xs
  induction xs with
  | nil => intro b; simp
  | cons y t ih =>
    intro b
    simp only [List.foldl_cons]
    rcases hg b y with h | h <;> rw [h]
    · rcases List.mem_cons.mp (ih b) with h2 | h2
      · rw [h2]; exact List.mem_cons_self _ _
      · exact List.mem_cons_of_mem _ (List.mem_cons_of_mem _ h2)
    · rcases List.mem_cons.mp (ih y) with h2 | h2
      · rw [h2]; exact List.mem_cons_of_mem _ (List.mem_cons_self _ _)
      · exact List.mem_cons_of_mem _ (List.mem_cons_of_mem _ h2)

theorem maxBySndNat_mem {l : List (String × ℕ)} {x : String × ℕ}
    (h : maxBySndNat l = some x) : x ∈ l := by
  cases l with
  | nil => simp [maxBySndNat] at h
  | cons y t =>
    simp only [maxBySndNat, Option.some.injEq] at h
    subst h
    exact foldl_choice_mem _
      (fun b y => by by_cases h : y.2 > b.2 <;> simp [h]) t y

theorem update_confidence_unit (s : RecState) :
    0 ≤ (update_confidence s).confidence ∧
      (update_confidence s).confidence ≤ 1 := by
  unfold update_confidence
  by_cases hh : s.history = []
  · simp [hh]
  · rw [if_neg hh]
    cases hmc : maxBySndNat (countsList s.history) with
    | none => simp
    | some mc =>
      have hlen : 0 < s.history.length := List.length_pos.mpr hh
      have hb : mc.2 ≤ s.history.length :=
        countsList_bound _ _ (maxBySndNat_mem hmc)
      have hlenR : (0 : ℝ) < (s.history.length : ℝ) := by exact_mod_cast hlen
      have hfreq0 : 0 ≤ (mc.2 : ℝ) / (s.history.length : ℝ) := by positivity
      have hfreq1 : (mc.2 : ℝ) / (s.history.length : ℝ) ≤ 1 := by
        rw [div_le_one hlenR]
        exact_mod_cast hb
      dsimp only
      by_cases hc : s.current_exercise.isSome ∧ s.current_exercise ≠ some mc.1
      · rw [if_pos hc]
        constructor
        · positivity
        · nlinarith
      · rw [if_neg hc]
        constructor
        · exact le_min (by norm_num)
            (by positivity)
        · exact min_le_left _ _

theorem applyFatiguePenalty_confidence_unit (s : RecState) (fs : Option ℝ)
    (h0 : 0 ≤ s.confidence) (h1 : s.confidence ≤ 1) :
    0 ≤ (applyFatiguePenalty s fs).confidence ∧
      (applyFatiguePenalty s fs).confidence ≤ 1 := by
  unfold applyFatiguePenalty
  cases fs with
  | none => exact ⟨h0, h1⟩
  | some v =>
    dsimp only
    by_cases hv : v > 0.8
    · rw [if_pos hv]
      have hs : s.confidence - 0.2 ≤ 1 := by linarith
      refine ⟨le_max_left _ _, ?_⟩
      show max (0 : ℝ) (s.confidence - 0.2) ≤ 1
      exact max_le (by norm_num) hs
    · rw [if_neg hv]
      exact ⟨h0, h1⟩

theorem recognizeBest_confidence_unit (s : RecState)
    (angles : List (String × ℝ)) (best : String × ℝ) (fs : Option ℝ)
    (h0 : 0 ≤ s.confidence) (h1 : s.confidence ≤ 1) :
    0 ≤ (recognizeBest s angles best fs).2.confidence ∧
      (recognizeBest s angles best fs).2.confidence ≤ 1 := by
  unfold recognizeBest
  dsimp only
  by_cases hm : s.min_frames ≤ (update_history s.history best.1 false).length
  · rw [if_pos hm]
    have h2 := update_confidence_unit
      { s with history := update_history s.history best.1 false }
    exact applyFatiguePenalty_confidence_unit _ fs h2.1 h2.2
  · rw [if_neg hm]
    exact applyFatiguePenalty_confidence_unit _ fs h0 h1

theorem recognizeMain_confidence_unit (s : RecState) (fr : Frame)
    (fs : Option ℝ) (h0 : 0 ≤ s.confidence) (h1 : s.confidence ≤ 1) :
    0 ≤ (recognizeMain s fr fs).2.confidence ∧
      (recognizeMain s fr fs).2.confidence ≤ 1 := by
  unfold recognizeMain
  by_cases hA : calculate_key_angles fr = []
  · rw [if_pos hA]
    exact ⟨h0, h1⟩
  · rw [if_neg hA]
    dsimp only
    by_cases hS : get_smoothed_scores (pushCap s.smooth_window s.score_smooth
        (calculate_exercise_scores s.exercise_profiles
          (calculate_key_angles fr))) = []
    · rw [if_pos hS]
      exact ⟨h0, h1⟩
    · rw [if_neg hS]
      cases hmb : maxBySnd (get_smoothed_scores (pushCap s.smooth_window
          s.score_smooth (calculate_exercise_scores s.exercise_profiles
            (calculate_key_angles fr)))) with
      | none => exact ⟨h0, h1⟩
      | some best => exact recognizeBest_confidence_unit _ _ best fs h0 h1

theorem recognizeFrame_confidence_unit (s : RecState) (fr : Frame)
    (fs : Option ℝ) (h0 : 0 ≤ s.confidence) (h1 : s.confidence ≤ 1) :
    0 ≤ (recognizeFrame s fr fs).2.confidence ∧
      (recognizeFrame s fr fs).2.confidence ≤ 1 := by
  unfold recognizeFrame
  cases hq : (if s.use_quick_detect ∧
      (s.current_exercise = none ∨ s.confidence < 0.5) then
      quick_detect_exercise fr else none) with
  | none => exact recognizeMain_confidence_unit s fr fs h0 h1
  | some q =>
    dsimp only
    by_cases hq2 : q ≠ "" ∧ (s.exercise_profiles.lookup q).isSome
    · rw [if_pos hq2]
      by_cases hm : s.min_frames / 2 ≤ (update_history s.history q true).length
      · rw [if_pos hm]
        norm_num
      · rw [if_neg hm]
        exact recognizeMain_confidence_unit _ fr fs h0 h1
    · rw [if_neg hq2]
      exact recognizeMain_confidence_unit s fr fs h0 h1

/-- C9: after any `recognize` call on a state whose stored confidence is
in [0, 1], the stored confidence is again in [0, 1] (so the interval is
an invariant of the recognizer, which starts at confidence 0). -/
theorem C9_confidence_unit_interval (s : RecState) (f : Option Frame)
    (fs : Option ℝ) (up : Option UserProfile)
    (h0 : 0 ≤ s.confidence) (h1 : s.confidence ≤ 1) :
    0 ≤ (recognize s f fs up).2.confidence ∧
      (recognize s f fs up).2.confidence ≤ 1 := by
  unfold recognize
  cases up with
  | none =>
    cases f with
    | none => exact ⟨h0, h1⟩
    | some fr => exact recognizeFrame_confidence_unit s fr fs h0 h1
  | some u =>
    cases f with
    | none => exact ⟨h0, h1⟩
    | some fr =>
      exact recognizeFrame_confidence_unit
        { s with exercise_profiles := get_user_profiles u } fr fs h0 h1

/-- Witness for C9 at the freshly constructed recognizer and an absent
frame: its confidence 0 lies in [0, 1] before and after the call. -/
theorem C9_confidence_unit_interval_witness :
    0 ≤ (recognize (initRecognizer 0.7 10 true 5) none none none).2.confidence ∧
      (recognize (initRecognizer 0.7 10 true 5) none none none).2.confidence ≤ 1 :=
  C9_confidence_unit_interval (initRecognizer 0.7 10 true 5) none none none
    (by norm_num [initRecognizer]) (by norm_num [initRecognizer])

theorem get_landmark_3d_fin (L : Fin 33 → Option Point3) (i : Fin 33) :
    get_landmark_3d L i.val = L i := by
  unfold get_landmark_3d
  rw [dif_pos i.isLt]

theorem quick_squat_both_knees {f : Frame}
    (h : quick_detect_exercise f = some "squat") :
    ∃ kl kr, qdKneeLeft (landmarksToNp f) = some kl ∧
      qdKneeRight (landmarksToNp f) = some kr := by
  unfold quick_detect_exercise at h
  dsimp only at h
  by_cases h1 : qdBodies (landmarksToNp f) ≠ [] ∧
      listMean (qdBodies (landmarksToNp f)) ≥ 170
  · rw [if_pos h1] at h
    split at h <;> exact absurd h (by decide)
  · rw [if_neg h1] at h
    by_cases h2 : (qdKnees (landmarksToNp f)).length = 2 ∧
        ∀ k ∈ qdKnees (landmarksToNp f), k < 140
    · have hlen := h2.1
      unfold qdKnees coalesce_angles at hlen
      cases hkl : qdKneeLeft (landmarksToNp f) with
      | none =>
        rw [hkl] at hlen
        cases hkr : qdKneeRight (landmarksToNp f) <;> rw [hkr] at hlen <;>
          simp at hlen
      | some kl =>
        cases hkr : qdKneeRight (landmarksToNp f) with
        | none =>
          rw [hkl, hkr] at hlen
          simp at hlen
        | some kr => exact ⟨kl, kr, rfl, rfl⟩
    · rw [if_neg h2] at h
      by_cases h3 : qdAsymAngle (landmarksToNp f) ∨ qdAsymXY (landmarksToNp f)
      · rw [if_pos h3] at h
        exact absurd h (by decide)
      · rw [if_neg h3] at h
        split at h
        · exact absurd h (by decide)
        · exact absurd h (by decide)

theorem key_angles_cons {f : Frame} {kl : ℝ}
    (h : qdKneeLeft (landmarksToNp f) = some kl) :
    ∃ rest, calculate_key_angles f = ("left_knee", kl) :: rest := by
  unfold calculate_key_angles
  dsimp only
  rw [get_landmark_3d_fin _ LEFT_HIP, get_landmark_3d_fin _ LEFT_KNEE,
    get_landmark_3d_fin _ LEFT_ANKLE]
  have hh : calculate_angle (landmarksToNp f LEFT_HIP)
      (landmarksToNp f LEFT_KNEE) (landmarksToNp f LEFT_ANKLE) = some kl := h
  rw [hh]
  exact ⟨_, rfl⟩

theorem scoreStep_snd_le (prof : ExProfile) (acc : ℝ × ℝ) (av : String × ℝ) :
    acc.2 ≤ (scoreStep prof acc av).2 := by
  unfold scoreStep
  cases prof.expected_ranges.lookup (get_angle_type av.1) with
  | none => exact le_refl _
  | some r =>
    dsimp only
    linarith

theorem foldl_scoreStep_snd_le (prof : ExProfile) :
    ∀ (l : List (String × ℝ)) (acc : ℝ × ℝ),
      acc.2 ≤ (l.foldl (scoreStep prof) acc).2
  | [], _ => le_refl _
  | av :: t, acc =>
    le_trans (scoreStep_snd_le prof acc av)
      (foldl_scoreStep_snd_le prof t (scoreStep prof acc av))

theorem scoreStep_knee_snd {prof : ExProfile} {r : ℝ × ℝ}
    (hlk : prof.expected_ranges.lookup "knee" = some r) (acc : ℝ × ℝ)
    (kl : ℝ) : (scoreStep prof acc ("left_knee", kl)).2 = acc.2 + 1 := by
  unfold scoreStep
  rw [show get_angle_type "left_knee" = "knee" from rfl, hlk]

theorem profileScoreWeight_knee_pos {prof : ExProfile} {r : ℝ × ℝ}
    (hlk : prof.expected_ranges.lookup "knee" = some r) (kl : ℝ)
    (arest : List (String × ℝ)) :
    0 < (profileScoreWeight prof (("left_knee", kl) :: arest)).2 := by
  unfold profileScoreWeight
  rw [List.foldl_cons]
  have h1 := foldl_scoreStep_snd_le prof arest (scoreStep prof (0, 0)
    ("left_knee", kl))
  rw [scoreStep_knee_snd hlk] at h1
  dsimp only at h1
  linarith

theorem calculate_exercise_scores_cons_pos {name : String} {prof : ExProfile}
    {ps : List (String × ExProfile)} {angles : List (String × ℝ)}
    (hpos : 0 < (profileScoreWeight prof angles).2) :
    calculate_exercise_scores ((name, prof) :: ps) angles =
      (name, (profileScoreWeight prof angles).1 /
        (profileScoreWeight prof angles).2 * prof.weight) ::
      calculate_exercise_scores ps angles := by
  unfold calculate_exercise_scores
  rw [List.filterMap_cons_some]
  dsimp only
  rw [if_pos hpos]

theorem dictAdd_ne_nil (acc : List (String × ℝ)) (k : String) (v : ℝ) :
    dictAdd acc k v ≠ [] := by
  unfold dictAdd
  split
  · rename_i hsome
    intro hmap
    rw [List.map_eq_nil_iff] at hmap
    rw [hmap] at hsome
    simp [List.lookup] at hsome
  · intro happ
    simp at happ

theorem foldl_dictAdd_ne_nil :
    ∀ (l : List (String × ℝ)) (acc : List (String × ℝ)), acc ≠ [] →
      l.foldl (fun a kv => dictAdd a kv.1 kv.2) acc ≠ []
  | [], _, h => h
  | kv :: t, acc, _ =>
    foldl_dictAdd_ne_nil t (dictAdd acc kv.1 kv.2)
      (dictAdd_ne_nil acc kv.1 kv.2)

theorem get_smoothed_scores_singleton_ne_nil {sc : List (String × ℝ)}
    (h : sc ≠ []) : get_smoothed_scores [sc] ≠ [] := by
  unfold get_smoothed_scores
  rw [if_neg (by simp)]
  dsimp only
  cases sc with
  | nil => exact absurd rfl h
  | cons c t =>
    rw [List.foldl_cons, List.foldl_nil, List.foldl_cons]
    intro hmap
    rw [List.map_eq_nil_iff] at hmap
    exact foldl_dictAdd_ne_nil t (dictAdd [] c.1 c.2)
      (dictAdd_ne_nil [] c.1 c.2) hmap

theorem maxBySnd_isSome {l : List (String × ℝ)} (h : l ≠ []) :
    ∃ b, maxBySnd l = some b := by
  cases l with
  | nil => exact absurd rfl h
  | cons x t => exact ⟨_, rfl⟩

theorem pushCap_length_of_lt {α : Type} {cap : ℕ} {l : List α} (x : α)
    (h : l.length + 1 ≤ cap) : (pushCap cap l x).length = l.length + 1 := by
  rw [pushCap_of_le cap l x h]
  simp

theorem maxBySnd_eq_none {l : List (String × ℝ)}
    (h : maxBySnd l = none) : l = [] := by
  cases l with
  | nil => rfl
  | cons x t => simp [maxBySnd] at h

theorem pushCap_nil {α : Type} (cap : ℕ) (x : α) (h : 0 < cap) :
    pushCap cap [] x = [x] := by
  unfold pushCap
  rw [if_neg (by simp; omega)]
  rfl

theorem scores_default_cons {angles : List (String × ℝ)}
    (hpos : 0 < (profileScoreWeight squatProfile angles).2) :
    calculate_exercise_scores default_profiles angles =
      ("squat", (profileScoreWeight squatProfile angles).1 /
        (profileScoreWeight squatProfile angles).2 * squatProfile.weight) ::
      calculate_exercise_scores
        [("pushup", pushupProfile), ("plank", plankProfile),
         ("lunge", lungeProfile), ("deadlift", deadliftProfile)] angles :=
  calculate_exercise_scores_cons_pos hpos

theorem update_history_fast (h : List String) (q : String) :
    update_history h q true =
      pushCap 30 (pushCap 30 (pushCap 30 h q) q) q := by
  unfold update_history
  rw [if_pos rfl]

theorem C3_call1_state {f : Frame}
    (h : quick_detect_exercise f = some "squat") :
    (recognize (initRecognizer 0.7 10 true 5) (some f) none none
      ).2.current_exercise = none ∧
    (recognize (initRecognizer 0.7 10 true 5) (some f) none none
      ).2.confidence = 0 ∧
    (recognize (initRecognizer 0.7 10 true 5) (some f) none none
      ).2.use_quick_detect = true ∧
    (recognize (initRecognizer 0.7 10 true 5) (some f) none none
      ).2.min_frames = 10 ∧
    (recognize (initRecognizer 0.7 10 true 5) (some f) none none
      ).2.history.length = 4 ∧
    (recognize (initRecognizer 0.7 10 true 5) (some f) none none
      ).2.exercise_profiles = default_profiles := by
  obtain ⟨kl, kr, hkl, hkr⟩ := quick_squat_both_knees h
  obtain ⟨arest, hangles⟩ := key_angles_cons hkl
  have hpos := profileScoreWeight_knee_pos
    (show squatProfile.expected_ranges.lookup "knee" = some (80, 140)
      from rfl) kl arest
  unfold recognize recognizeFrame
  dsimp only
  rw [if_pos (⟨rfl, Or.inl rfl⟩ :
    (initRecognizer 0.7 10 true 5).use_quick_detect = true ∧
    ((initRecognizer 0.7 10 true 5).current_exercise = none ∨
     (initRecognizer 0.7 10 true 5).confidence < 0.5)), h]
  dsimp only
  rw [if_pos (⟨by decide, rfl⟩ : ("squat" : String) ≠ "" ∧
    (((initRecognizer 0.7 10 true 5).exercise_profiles.lookup
      "squat").isSome = true))]
  rw [if_neg (by decide :
    ¬((initRecognizer 0.7 10 true 5).min_frames / 2 ≤
      (update_history (initRecognizer 0.7 10 true 5).history "squat"
        true).length))]
  unfold recognizeMain
  rw [hangles, if_neg (List.cons_ne_nil _ _)]
  dsimp only
  rw [show (initRecognizer 0.7 10 true 5).exercise_profiles =
      default_profiles from rfl,
    scores_default_cons hpos,
    show (initRecognizer 0.7 10 true 5).smooth_window = 5 from rfl,
    show (initRecognizer 0.7 10 true 5).score_smooth = [] from rfl,
    pushCap_nil 5 _ (by norm_num),
    if_neg (get_smoothed_scores_singleton_ne_nil (List.cons_ne_nil _ _))]
  split
  · rename_i heq
    exact absurd (maxBySnd_eq_none heq) (by
      intro hc
      exact get_smoothed_scores_singleton_ne_nil (List.cons_ne_nil _ _) hc)
  · rename_i best heq
    unfold recognizeBest
    dsimp only
    rw [if_neg (by
      rw [show update_history (update_history
          (initRecognizer 0.7 10 true 5).history "squat" true) best.1 false =
        pushCap 30 ["squat", "squat", "squat"] best.1 from rfl]
      rw [pushCap_length_of_lt best.1 (by norm_num),
        show (initRecognizer 0.7 10 true 5).min_frames = 10 from rfl]
      norm_num)]
    refine ⟨rfl, rfl, rfl, rfl, ?_, rfl⟩
    show (pushCap 30 ["squat", "squat", "squat"] best.1).length = 4
    rw [pushCap_length_of_lt best.1 (by norm_num)]
    rfl

/-- C3 (amended): from a freshly constructed recognizer with the default
parameters, repeatedly feeding one fixed frame whose quick detection
yields squat makes the second call already report the triple
`(squat, 0.8, init)`: the fast mode pushes the label 3 times per call,
so the 5-push threshold (half of `min_frames = 10`) is crossed on call
2, with 7 history entries, not on call 4. -/
theorem C3_bootstrap_second_call (f : Frame)
    (h : quick_detect_exercise f = some "squat") :
    (recognizeRun (initRecognizer 0.7 10 true 5) f 2).1 =
      (some "squat", 0.8, some "init") := by
  obtain ⟨hcur, hconf, hquick, hminf, hlen, hprof⟩ := C3_call1_state h
  show (recognize (recognize (initRecognizer 0.7 10 true 5) (some f)
    none none).2 (some f) none none).1 = _
  generalize hst : (recognize (initRecognizer 0.7 10 true 5) (some f)
    none none).2 = st at hcur hconf hquick hminf hlen hprof ⊢
  unfold recognize recognizeFrame
  dsimp only
  rw [if_pos ⟨hquick, Or.inl hcur⟩, h]
  dsimp only
  rw [if_pos ⟨by decide, by rw [hprof]; rfl⟩]
  rw [if_pos (by
    rw [hminf, update_history_fast]
    rw [pushCap_length_of_lt _ (by
        rw [pushCap_length_of_lt _ (by
          rw [pushCap_length_of_lt _ (by rw [hlen]; norm_num), hlen]
          norm_num), pushCap_length_of_lt _ (by rw [hlen]; norm_num), hlen]
        norm_num)]
    rw [pushCap_length_of_lt _ (by
        rw [pushCap_length_of_lt _ (by rw [hlen]; norm_num), hlen]
        norm_num)]
    rw [pushCap_length_of_lt _ (by rw [hlen]; norm_num), hlen]
    norm_num)]

theorem scoreStep_eval {prof : ExProfile} {name : String} {lo hi : ℝ}
    (hl : List.lookup (get_angle_type name) prof.expected_ranges =
      some (lo, hi)) (acc : ℝ × ℝ) (v : ℝ) :
    scoreStep prof acc (name, v) =
      (acc.1 + (if lo ≤ v ∧ v ≤ hi then 1
        else max 0 (1 - min |v - lo| |v - hi| / 90)), acc.2 + 1) := by
  unfold scoreStep
  rw [hl]

theorem scoreStep_none {prof : ExProfile} {name : String}
    (hl : List.lookup (get_angle_type name) prof.expected_ranges = none)
    (acc : ℝ × ℝ) (v : ℝ) : scoreStep prof acc (name, v) = acc := by
  unfold scoreStep
  rw [hl]

theorem wSquat : profileScoreWeight squatProfile
    [("left_knee", 0), ("right_knee", 0)] = (2/9, 2) := by
  unfold profileScoreWeight
  rw [List.foldl_cons, scoreStep_eval (show List.lookup (get_angle_type "left_knee") squatProfile.expected_ranges = some (80, 140) from rfl), List.foldl_cons,
    scoreStep_eval (show List.lookup (get_angle_type "right_knee") squatProfile.expected_ranges = some (80, 140) from rfl), List.foldl_nil]
  norm_num

theorem wPushup : profileScoreWeight pushupProfile
    [("left_knee", 0), ("right_knee", 0)] = (0, 0) := by
  unfold profileScoreWeight
  rw [List.foldl_cons, scoreStep_none (show List.lookup (get_angle_type "left_knee") pushupProfile.expected_ranges = none from rfl), List.foldl_cons,
    scoreStep_none (show List.lookup (get_angle_type "right_knee") pushupProfile.expected_ranges = none from rfl), List.foldl_nil]

theorem wPlank : profileScoreWeight plankProfile
    [("left_knee", 0), ("right_knee", 0)] = (0, 0) := by
  unfold profileScoreWeight
  rw [List.foldl_cons, scoreStep_none (show List.lookup (get_angle_type "left_knee") plankProfile.expected_ranges = none from rfl), List.foldl_cons,
    scoreStep_none (show List.lookup (get_angle_type "right_knee") plankProfile.expected_ranges = none from rfl), List.foldl_nil]

theorem wLunge : profileScoreWeight lungeProfile
    [("left_knee", 0), ("right_knee", 0)] = (2/3, 2) := by
  unfold profileScoreWeight
  rw [List.foldl_cons, scoreStep_eval (show List.lookup (get_angle_type "left_knee") lungeProfile.expected_ranges = some (60, 150) from rfl), List.foldl_cons,
    scoreStep_eval (show List.lookup (get_angle_type "right_knee") lungeProfile.expected_ranges = some (60, 150) from rfl), List.foldl_nil]
  norm_num

theorem wDeadlift : profileScoreWeight deadliftProfile
    [("left_knee", 0), ("right_knee", 0)] = (0, 2) := by
  unfold profileScoreWeight
  rw [List.foldl_cons, scoreStep_eval (show List.lookup (get_angle_type "left_knee") deadliftProfile.expected_ranges = some (160, 180) from rfl), List.foldl_cons,
    scoreStep_eval (show List.lookup (get_angle_type "right_knee") deadliftProfile.expected_ranges = some (160, 180) from rfl), List.foldl_nil]
  norm_num

/-- The exercise-score dict computed on the two 0-degree knee angles. -/
def scFS : List (String × ℝ) := [("squat", 1/9), ("lunge", 2/5), ("deadlift", 0)]

theorem scores_frameSquat_angles :
    calculate_exercise_scores default_profiles
      [("left_knee", 0), ("right_knee", 0)] = scFS := by
  have hw1 : squatProfile.weight = 1.0 := rfl
  have hw4 : lungeProfile.weight = 1.2 := rfl
  have hw5 : deadliftProfile.weight = 1.1 := rfl
  unfold calculate_exercise_scores default_profiles
  norm_num [List.filterMap_cons, wSquat, wPushup, wPlank, wLunge,
    wDeadlift, hw1, hw4, hw5, scFS]

theorem smoothFS1 : get_smoothed_scores [scFS] = scFS := by
  unfold get_smoothed_scores
  rw [if_neg (by simp)]
  dsimp only
  rw [show ([scFS].foldl (fun acc d => d.foldl
      (fun acc kv => dictAdd acc kv.1 kv.2) acc) []) =
    [("squat", (1 : ℝ)/9), ("lunge", (2 : ℝ)/5), ("deadlift", (0 : ℝ))]
    from rfl]
  norm_num [scFS]

theorem smoothFS2 : get_smoothed_scores [scFS, scFS] = scFS := by
  unfold get_smoothed_scores
  rw [if_neg (by simp)]
  dsimp only
  rw [show ([scFS, scFS].foldl (fun acc d => d.foldl
      (fun acc kv => dictAdd acc kv.1 kv.2) acc) []) =
    [("squat", (1 : ℝ)/9 + 1/9), ("lunge", (2 : ℝ)/5 + 2/5),
     ("deadlift", (0 : ℝ) + 0)] from rfl]
  norm_num [scFS]

theorem smoothFS3 : get_smoothed_scores [scFS, scFS, scFS] = scFS := by
  unfold get_smoothed_scores
  rw [if_neg (by simp)]
  dsimp only
  rw [show ([scFS, scFS, scFS].foldl (fun acc d => d.foldl
      (fun acc kv => dictAdd acc kv.1 kv.2) acc) []) =
    [("squat", (1 : ℝ)/9 + 1/9 + 1/9), ("lunge", (2 : ℝ)/5 + 2/5 + 2/5),
     ("deadlift", (0 : ℝ) + 0 + 0)] from rfl]
  norm_num [scFS]

theorem bestFS : maxBySnd scFS = some ("lunge", 2/5) := by
  unfold maxBySnd scFS
  dsimp only
  rw [List.foldl_cons, List.foldl_cons, List.foldl_nil]
  norm_num

theorem phaseFS : detect_phase default_profiles
    [("left_knee", 0), ("right_knee", 0)] "lunge" = "unk" := by
  unfold detect_phase
  rw [show List.lookup "lunge" default_profiles = some lungeProfile from rfl]
  dsimp only
  rw [show List.lookup "knee" lungeProfile.expected_ranges =
    some ((60 : ℝ), (150 : ℝ)) from rfl]
  dsimp only
  rw [show List.lookup "left_knee"
    [(("left_knee" : String), (0 : ℝ)), ("right_knee", 0)] = some 0 from rfl]
  rw [show List.lookup "right_knee"
    [(("left_knee" : String), (0 : ℝ)), ("right_knee", 0)] = some 0 from rfl]
  norm_num

theorem frameSquat_kneeLeft :
    qdKneeLeft (landmarksToNp frameSquatKnees) = some 0 := by
  show calculate_angle (some ((0 : ℝ), (0 : ℝ), (0 : ℝ)))
    (some ((0 : ℝ), (1 : ℝ), (0 : ℝ)))
    (some ((0 : ℝ), (0 : ℝ), (0 : ℝ))) = some 0
  have hn : pnorm (psub ((0 : ℝ), (0 : ℝ), (0 : ℝ))
      ((0 : ℝ), (1 : ℝ), (0 : ℝ))) = 1 :=
    pnorm_eq_of_sq zero_le_one (by norm_num [pdot, psub])
  rw [calculate_angle_some (by rw [hn]; norm_num) (by rw [hn]; norm_num), hn]
  have hd : pdot (psub ((0 : ℝ), (0 : ℝ), (0 : ℝ)) ((0 : ℝ), (1 : ℝ), (0 : ℝ)))
      (psub ((0 : ℝ), (0 : ℝ), (0 : ℝ)) ((0 : ℝ), (1 : ℝ), (0 : ℝ))) = 1 := by
    norm_num [pdot, psub]
  rw [hd]
  norm_num [clipCos_one, degArccos_one]

theorem frameSquat_kneeRight :
    qdKneeRight (landmarksToNp frameSquatKnees) = some 0 := by
  show calculate_angle (some ((1 : ℝ), (0 : ℝ), (0 : ℝ)))
    (some ((1 : ℝ), (1 : ℝ), (0 : ℝ)))
    (some ((1 : ℝ), (0 : ℝ), (0 : ℝ))) = some 0
  have hn : pnorm (psub ((1 : ℝ), (0 : ℝ), (0 : ℝ))
      ((1 : ℝ), (1 : ℝ), (0 : ℝ))) = 1 :=
    pnorm_eq_of_sq zero_le_one (by norm_num [pdot, psub])
  rw [calculate_angle_some (by rw [hn]; norm_num) (by rw [hn]; norm_num), hn]
  have hd : pdot (psub ((1 : ℝ), (0 : ℝ), (0 : ℝ)) ((1 : ℝ), (1 : ℝ), (0 : ℝ)))
      (psub ((1 : ℝ), (0 : ℝ), (0 : ℝ)) ((1 : ℝ), (1 : ℝ), (0 : ℝ))) = 1 := by
    norm_num [pdot, psub]
  rw [hd]
  norm_num [clipCos_one, degArccos_one]

theorem frameSquat_knees :
    qdKnees (landmarksToNp frameSquatKnees) = [0, 0] := by
  unfold qdKnees
  rw [frameSquat_kneeLeft, frameSquat_kneeRight]
  rfl

theorem quick_detect_frameSquat :
    quick_detect_exercise frameSquatKnees = some "squat" := by
  unfold quick_detect_exercise
  dsimp only
  rw [if_neg (by
    rw [show qdBodies (landmarksToNp frameSquatKnees) = [] from rfl]
    simp)]
  rw [if_pos (by
    rw [frameSquat_knees]
    refine ⟨rfl, ?_⟩
    intro k hk
    simp at hk
    rw [hk]
    norm_num)]

theorem key_angles_frameSquat :
    calculate_key_angles frameSquatKnees =
      [("left_knee", 0), ("right_knee", 0)] := by
  unfold calculate_key_angles
  dsimp only
  rw [show calculate_angle
      (get_landmark_3d (landmarksToNp frameSquatKnees) LEFT_HIP.val)
      (get_landmark_3d (landmarksToNp frameSquatKnees) LEFT_KNEE.val)
      (get_landmark_3d (landmarksToNp frameSquatKnees) LEFT_ANKLE.val) =
      some 0 from frameSquat_kneeLeft]
  rw [show calculate_angle
      (get_landmark_3d (landmarksToNp frameSquatKnees) RIGHT_HIP.val)
      (get_landmark_3d (landmarksToNp frameSquatKnees) RIGHT_KNEE.val)
      (get_landmark_3d (landmarksToNp frameSquatKnees) RIGHT_ANKLE.val) =
      some 0 from frameSquat_kneeRight]
  rfl

/-- The recognizer state after call 1 on `frameSquatKnees`. -/
def st1FS : RecState :=
  ⟨0.7, 10, true, 5, [], none, 0, ["squat", "squat", "squat", "lunge"],
   [scFS], some "unk", default_profiles⟩

/-- The recognizer state after call 2 on `frameSquatKnees`. -/
def st2FS : RecState :=
  ⟨0.7, 10, true, 5, [], some "squat", 0.8,
   ["squat", "squat", "squat", "lunge", "squat", "squat", "squat"],
   [scFS], some "init", default_profiles⟩

/-- The recognizer state after call 3 on `frameSquatKnees`. -/
def st3FS : RecState :=
  ⟨0.7, 10, true, 5, [], some "squat", 0.8,
   ["squat", "squat", "squat", "lunge", "squat", "squat", "squat", "lunge"],
   [scFS, scFS], some "unk", default_profiles⟩

/-- The recognizer state after call 4 on `frameSquatKnees`. -/
def st4FS : RecState :=
  ⟨0.7, 10, true, 5, [], some "squat", 0.8,
   ["squat", "squat", "squat", "lunge", "squat", "squat", "squat", "lunge",
    "lunge"],
   [scFS, scFS, scFS], some "unk", default_profiles⟩

theorem recognize_frameSquat_call1 :
    recognize (initRecognizer 0.7 10 true 5) (some frameSquatKnees)
      none none = ((none, 0, some "unk"), st1FS) := by
  unfold recognize recognizeFrame
  dsimp only
  rw [if_pos (⟨rfl, Or.inl rfl⟩ :
    (initRecognizer 0.7 10 true 5).use_quick_detect = true ∧
    ((initRecognizer 0.7 10 true 5).current_exercise = none ∨
     (initRecognizer 0.7 10 true 5).confidence < 0.5)),
    quick_detect_frameSquat]
  dsimp only
  rw [if_pos (⟨by decide, rfl⟩ : ("squat" : String) ≠ "" ∧
    (((initRecognizer 0.7 10 true 5).exercise_profiles.lookup
      "squat").isSome = true))]
  rw [if_neg (by decide :
    ¬((initRecognizer 0.7 10 true 5).min_frames / 2 ≤
      (update_history (initRecognizer 0.7 10 true 5).history "squat"
        true).length))]
  unfold recognizeMain
  rw [key_angles_frameSquat, if_neg (List.cons_ne_nil _ _)]
  dsimp only
  rw [show (initRecognizer 0.7 10 true 5).exercise_profiles =
      default_profiles from rfl,
    scores_frameSquat_angles,
    show (initRecognizer 0.7 10 true 5).smooth_window = 5 from rfl,
    show (initRecognizer 0.7 10 true 5).score_smooth = [] from rfl,
    pushCap_nil 5 _ (by norm_num),
    smoothFS1,
    if_neg (by simp [scFS]),
    bestFS]
  unfold recognizeBest
  dsimp only
  rw [if_neg (by decide :
    ¬((initRecognizer 0.7 10 true 5).min_frames ≤
      (update_history (update_history (initRecognizer 0.7 10 true 5).history
        "squat" true) ("lunge", (2 : ℝ)/5).1 false).length))]
  unfold applyFatiguePenalty
  dsimp only
  rw [phaseFS]
  refine Prod.ext rfl ?_
  show ({ (initRecognizer 0.7 10 true 5) with
    history := update_history (update_history
      (initRecognizer 0.7 10 true 5).history "squat" true)
      ("lunge", (2 : ℝ)/5).1 false,
    score_smooth := [scFS],
    last_phase := some "unk" } : RecState) = st1FS
  rw [show update_history (update_history
      (initRecognizer 0.7 10 true 5).history "squat" true)
      ("lunge", (2 : ℝ)/5).1 false =
    ["squat", "squat", "squat", "lunge"] from rfl]
  rfl

theorem recognize_frameSquat_call2 :
    recognize st1FS (some frameSquatKnees) none none =
      ((some "squat", 0.8, some "init"), st2FS) := by
  unfold recognize recognizeFrame
  dsimp only
  rw [if_pos (⟨rfl, Or.inl rfl⟩ : st1FS.use_quick_detect = true ∧
      (st1FS.current_exercise = none ∨ st1FS.confidence < 0.5)),
    quick_detect_frameSquat]
  dsimp only
  rw [if_pos (⟨by decide, rfl⟩ : ("squat" : String) ≠ "" ∧
    ((st1FS.exercise_profiles.lookup "squat").isSome = true))]
  rw [if_pos (by decide : st1FS.min_frames / 2 ≤
    (update_history st1FS.history "squat" true).length)]
  refine Prod.ext rfl ?_
  show ({ st1FS with
    history := update_history st1FS.history "squat" true,
    current_exercise := some "squat", confidence := 0.8,
    last_phase := some "init" } : RecState) = st2FS
  rw [show update_history st1FS.history "squat" true =
    ["squat", "squat", "squat", "lunge", "squat", "squat", "squat"]
    from rfl]
  rfl

theorem recognize_frameSquat_call3 :
    recognize st2FS (some frameSquatKnees) none none =
      ((some "squat", 0.8, some "unk"), st3FS) := by
  unfold recognize recognizeFrame
  dsimp only
  rw [if_neg (by
    intro hc
    rcases hc.2 with hc2 | hc2
    · exact absurd hc2 (by decide)
    · rw [show st2FS.confidence = 0.8 from rfl] at hc2
      norm_num at hc2)]
  unfold recognizeMain
  rw [key_angles_frameSquat, if_neg (List.cons_ne_nil _ _)]
  dsimp only
  rw [show st2FS.exercise_profiles = default_profiles from rfl,
    scores_frameSquat_angles,
    show st2FS.smooth_window = 5 from rfl,
    show st2FS.score_smooth = [scFS] from rfl,
    show pushCap 5 [scFS] scFS = [scFS, scFS] from rfl,
    smoothFS2,
    if_neg (by simp [scFS]),
    bestFS]
  unfold recognizeBest
  dsimp only
  rw [if_neg (by decide : ¬(st2FS.min_frames ≤
    (update_history st2FS.history ("lunge", (2 : ℝ)/5).1 false).length))]
  unfold applyFatiguePenalty
  dsimp only
  rw [phaseFS]
  refine Prod.ext rfl ?_
  show ({ st2FS with
    history := update_history st2FS.history ("lunge", (2 : ℝ)/5).1 false,
    score_smooth := [scFS, scFS],
    last_phase := some "unk" } : RecState) = st3FS
  rw [show update_history st2FS.history ("lunge", (2 : ℝ)/5).1 false =
    ["squat", "squat", "squat", "lunge", "squat", "squat", "squat",
     "lunge"] from rfl]
  rfl

theorem recognize_frameSquat_call4 :
    recognize st3FS (some frameSquatKnees) none none =
      ((some "squat", 0.8, some "unk"), st4FS) := by
  unfold recognize recognizeFrame
  dsimp only
  rw [if_neg (by
    intro hc
    rcases hc.2 with hc2 | hc2
    · exact absurd hc2 (by decide)
    · rw [show st3FS.confidence = 0.8 from rfl] at hc2
      norm_num at hc2)]
  unfold recognizeMain
  rw [key_angles_frameSquat, if_neg (List.cons_ne_nil _ _)]
  dsimp only
  rw [show st3FS.exercise_profiles = default_profiles from rfl,
    scores_frameSquat_angles,
    show st3FS.smooth_window = 5 from rfl,
    show st3FS.score_smooth = [scFS, scFS] from rfl,
    show pushCap 5 [scFS, scFS] scFS = [scFS, scFS, scFS] from rfl,
    smoothFS3,
    if_neg (by simp [scFS]),
    bestFS]
  unfold recognizeBest
  dsimp only
  rw [if_neg (by decide : ¬(st3FS.min_frames ≤
    (update_history st3FS.history ("lunge", (2 : ℝ)/5).1 false).length))]
  unfold applyFatiguePenalty
  dsimp only
  rw [phaseFS]
  refine Prod.ext rfl ?_
  show ({ st3FS with
    history := update_history st3FS.history ("lunge", (2 : ℝ)/5).1 false,
    score_smooth := [scFS, scFS, scFS],
    last_phase := some "unk" } : RecState) = st4FS
  rw [show update_history st3FS.history ("lunge", (2 : ℝ)/5).1 false =
    ["squat", "squat", "squat", "lunge", "squat", "squat", "squat",
     "lunge", "lunge"] from rfl]
  rfl

/-- Witness for C3 (amended) on `frameSquatKnees`, a frame whose quick
detection yields squat. -/
theorem C3_bootstrap_second_call_witness :
    (recognizeRun (initRecognizer 0.7 10 true 5) frameSquatKnees 2).1 =
      (some "squat", 0.8, some "init") :=
  C3_bootstrap_second_call frameSquatKnees quick_detect_frameSquat

/-- Counterexample to C3 as stated: on `frameSquatKnees` (quick detection
squat, both knee angles 0 degrees), the recognizer reports the triple
`(squat, 0.8, init)` already on call 2; on call 4 it reports
`(squat, 0.8, unk)` — the phase is no longer init, because calls 3 and 4
take the scoring path and the 0-degree knee angles are discarded by the
truthiness test of the phase detector. -/
theorem C3_counterexample :
    quick_detect_exercise frameSquatKnees = some "squat" ∧
    (recognizeRun (initRecognizer 0.7 10 true 5) frameSquatKnees 4).1 =
      (some "squat", 0.8, some "unk") ∧
    (some "squat", (0.8 : ℝ), some "unk") ≠
      (some "squat", (0.8 : ℝ), some "init") := by
  refine ⟨quick_detect_frameSquat, ?_, by simp⟩
  have e1 : recognizeRun (initRecognizer 0.7 10 true 5) frameSquatKnees 1 =
      ((none, 0, some "unk"), st1FS) := recognize_frameSquat_call1
  have e2 : recognizeRun (initRecognizer 0.7 10 true 5) frameSquatKnees 2 =
      ((some "squat", 0.8, some "init"), st2FS) := by
    show recognize (recognizeRun (initRecognizer 0.7 10 true 5)
      frameSquatKnees 1).2 (some frameSquatKnees) none none = _
    rw [e1]
    exact recognize_frameSquat_call2
  have e3 : recognizeRun (initRecognizer 0.7 10 true 5) frameSquatKnees 3 =
      ((some "squat", 0.8, some "unk"), st3FS) := by
    show recognize (recognizeRun (initRecognizer 0.7 10 true 5)
      frameSquatKnees 2).2 (some frameSquatKnees) none none = _
    rw [e2]
    exact recognize_frameSquat_call3
  have e4 : recognizeRun (initRecognizer 0.7 10 true 5) frameSquatKnees 4 =
      ((some "squat", 0.8, some "unk"), st4FS) := by
    show recognize (recognizeRun (initRecognizer 0.7 10 true 5)
      frameSquatKnees 3).2 (some frameSquatKnees) none none = _
    rw [e3]
    exact recognize_frameSquat_call4
  rw [e4]

/-- C5: a fatigue `update` on a frame missing any of the 10 required key
joints returns the prior score map and leaves the whole state (window
and scores) unchanged, and while the window holds fewer than 2 frames
(empty before the call) `update` returns the all-zero default scores. -/
theorem C5_fatigue_reject_and_default :
    (∀ (s : FatState) (f : RawFrame) (up : Option UserProfile),
      (∃ i ∈ key_indices, get_landmark_3d_raw f i = none) →
      fupdate s f up = (s.fatigue_scores, s)) ∧
    (∀ (s : FatState) (f : RawFrame) (up : Option UserProfile),
      s.fatigue_scores = zeroScores → s.pose_history = [] →
      (fupdate s f up).1 = zeroScores) := by
  constructor
  · intro s f up h
    unfold fupdate
    rw [extract_key_points_eq_none h]
  · intro s f up hsc hhist
    unfold fupdate
    cases hex : extract_key_points f with
    | none => exact hsc
    | some p =>
      dsimp only
      rw [hhist]
      have hlen : (pushCap s.window_size [] p).length < 2 := by
        unfold pushCap
        dsimp only
        simp only [List.nil_append, List.length_cons, List.length_nil]
        by_cases hc : s.window_size < 0 + 1
        · rw [if_pos hc]
          simp only [List.length_drop, List.length_cons, List.length_nil]
          omega
        · rw [if_neg hc]
          simp
      rw [if_pos hlen]
      exact hsc

/-- Witness for C5: the empty frame misses key joint 11, so the fresh
analyzer rejects it, keeps its state and returns the all-zero scores. -/
theorem C5_fatigue_reject_and_default_witness :
    fupdate (initFatigue 30 0.15 true) [] none =
      ((initFatigue 30 0.15 true).fatigue_scores, initFatigue 30 0.15 true) ∧
    (fupdate (initFatigue 30 0.15 true) [] none).1 = zeroScores :=
  ⟨C5_fatigue_reject_and_default.1 (initFatigue 30 0.15 true) [] none
      ⟨11, by decide, rfl⟩,
   C5_fatigue_reject_and_default.2 (initFatigue 30 0.15 true) [] none rfl rfl⟩

theorem fupdate_window_size (s : FatState) (f : RawFrame)
    (up : Option UserProfile) :
    (fupdate s f up).2.window_size = s.window_size := by
  unfold fupdate
  cases hex : extract_key_points f with
  | none => rfl
  | some p =>
    dsimp only
    split
    · rfl
    · rfl

theorem fupdateRun_window_size (s : FatState) (f : RawFrame) :
    ∀ n, (fupdateRun s f n).window_size = s.window_size
  | 0 => rfl
  | n + 1 => by
    rw [fupdateRun, fupdate_window_size, fupdateRun_window_size s f n]

/-- C6: feeding the same complete frame (all 10 key joints extracted) to
a fresh fatigue analyzer five times in a row yields the all-zero score
map on the fifth call: every stability component, the velocity, the
early-fatigue jitter and the overall mean are exactly 0. -/
theorem C6_identical_frames_zero (f : RawFrame) (p : Pose) (thr : ℝ)
    (dyn : Bool) (hp : extract_key_points f = some p) :
    (fupdate (fupdateRun (initFatigue 30 thr dyn) f 4) f none).1 =
      zeroScores := by
  have hcoh := extract_coherent hp
  have h1 := fupdate_same (initFatigue 30 thr dyn) f p 0 hp hcoh rfl rfl
    (by norm_num [initFatigue])
  have h2 := fupdate_same (fupdateRun (initFatigue 30 thr dyn) f 1) f p 1 hp
    hcoh h1.2.1 h1.2.2.1 (by
      rw [fupdateRun_window_size]
      norm_num [initFatigue])
  have h3 := fupdate_same (fupdateRun (initFatigue 30 thr dyn) f 2) f p 2 hp
    hcoh h2.2.1 h2.2.2.1 (by
      rw [fupdateRun_window_size]
      norm_num [initFatigue])
  have h4 := fupdate_same (fupdateRun (initFatigue 30 thr dyn) f 3) f p 3 hp
    hcoh h3.2.1 h3.2.2.1 (by
      rw [fupdateRun_window_size]
      norm_num [initFatigue])
  have h5 := fupdate_same (fupdateRun (initFatigue 30 thr dyn) f 4) f p 4 hp
    hcoh h4.2.1 h4.2.2.1 (by
      rw [fupdateRun_window_size]
      norm_num [initFatigue])
  exact h5.1

/-- A complete raw frame: 29 landmarks, all at the origin. -/
def frameAllZero : RawFrame :=
  List.replicate 29 ((0 : ℝ), (0 : ℝ), (0 : ℝ))

/-- The pose extracted from `frameAllZero`, in `key_indices` order. -/
def poseAllZero : Pose :=
  key_indices.map (fun i => (i, ((0 : ℝ), (0 : ℝ), (0 : ℝ))))

/-- Witness for C6 at the concrete all-zero frame. -/
theorem C6_identical_frames_zero_witness :
    (fupdate (fupdateRun (initFatigue 30 0.15 true) frameAllZero 4)
      frameAllZero none).1 = zeroScores :=
  C6_identical_frames_zero frameAllZero poseAllZero 0.15 true rfl

theorem calculate_angle_isSome {a b c : Point3}
    (h1 : pnorm (psub a b) ≠ 0) (h2 : pnorm (psub c b) ≠ 0) :
    calculate_angle (some a) (some b) (some c) ≠ none := by
  rw [calculate_angle_some h1 h2]
  simp

/-- C1 (amended): on every frame where both knee angles are defined (the
valgus check is gated on them) and the left-knee x coordinate is less
than the right-knee x coordinate, `analyze_squat` reports the severe
knee-valgus mistake, independently of the other checks. -/
theorem C1_knee_valgus (f : Frame) (kl kr lx rx : ℝ)
    (hkl : calculate_angle (get_landmark_3d (landmarksToNp f) 23)
      (get_landmark_3d (landmarksToNp f) 25)
      (get_landmark_3d (landmarksToNp f) 27) = some kl)
    (hkr : calculate_angle (get_landmark_3d (landmarksToNp f) 24)
      (get_landmark_3d (landmarksToNp f) 26)
      (get_landmark_3d (landmarksToNp f) 28) = some kr)
    (hlx : safe_x (landmarksToNp f) LEFT_KNEE = some lx)
    (hrx : safe_x (landmarksToNp f) RIGHT_KNEE = some rx)
    (hlt : lx < rx) :
    kneeValgusMistake ∈ (analyze_squat f).mistakes := by
  unfold analyze_squat
  dsimp only
  rw [hkl, hkr, hlx, hrx]
  dsimp only
  rw [if_pos hlt]
  exact List.mem_append_left _ (List.mem_append_left _
    (List.mem_append_left _ (List.mem_singleton.mpr rfl)))

/-- Witness for C1 (amended) on `frameSquatKnees`: both knee angles are
defined there (0 degrees each) and 0 < 1, so the valgus mistake is
reported. -/
theorem C1_knee_valgus_witness :
    kneeValgusMistake ∈ (analyze_squat frameSquatKnees).mistakes :=
  C1_knee_valgus frameSquatKnees
    (degArccos (clipCos (pdot (psub (0, 0, 0) (0, 1, 0))
      (psub (0, 0, 0) (0, 1, 0)) /
      (pnorm (psub (0, 0, 0) (0, 1, 0)) * pnorm (psub (0, 0, 0) (0, 1, 0))))))
    (degArccos (clipCos (pdot (psub (1, 0, 0) (1, 1, 0))
      (psub (1, 0, 0) (1, 1, 0)) /
      (pnorm (psub (1, 0, 0) (1, 1, 0)) * pnorm (psub (1, 0, 0) (1, 1, 0))))))
    0 1
    (by
      show calculate_angle (some ((0 : ℝ), (0 : ℝ), (0 : ℝ)))
        (some ((0 : ℝ), (1 : ℝ), (0 : ℝ)))
        (some ((0 : ℝ), (0 : ℝ), (0 : ℝ))) = _
      exact calculate_angle_some
        (pnorm_ne_zero one_pos (by norm_num [pdot, psub]))
        (pnorm_ne_zero one_pos (by norm_num [pdot, psub])))
    (by
      show calculate_angle (some ((1 : ℝ), (0 : ℝ), (0 : ℝ)))
        (some ((1 : ℝ), (1 : ℝ), (0 : ℝ)))
        (some ((1 : ℝ), (0 : ℝ), (0 : ℝ))) = _
      exact calculate_angle_some
        (pnorm_ne_zero one_pos (by norm_num [pdot, psub]))
        (pnorm_ne_zero one_pos (by norm_num [pdot, psub])))
    rfl rfl (by norm_num)

/-- Counterexample to C1 as stated: a frame where both knee x coordinates
are present with left < right but no other landmark exists; the knee
angles are undefined, the valgus check (which is gated on both knee
angles) does not fire, and the mistakes list is empty. -/
theorem C1_counterexample :
    safe_x (landmarksToNp frameKneesOnly) LEFT_KNEE = some 0 ∧
    safe_x (landmarksToNp frameKneesOnly) RIGHT_KNEE = some 1 ∧
    (0 : ℝ) < 1 ∧
    (analyze_squat frameKneesOnly).mistakes = [] :=
  ⟨rfl, rfl, by norm_num, rfl⟩

theorem frameDL_kneeLeft :
    qdKneeLeft (landmarksToNp frameDeadliftLeft) = some 180 := by
  show calculate_angle (some ((0 : ℝ), (0 : ℝ), (0 : ℝ)))
    (some ((0 : ℝ), (1 : ℝ), (0 : ℝ)))
    (some ((0 : ℝ), (2 : ℝ), (0 : ℝ))) = some 180
  have hn1 : pnorm (psub ((0 : ℝ), (0 : ℝ), (0 : ℝ))
      ((0 : ℝ), (1 : ℝ), (0 : ℝ))) = 1 :=
    pnorm_eq_of_sq zero_le_one (by norm_num [pdot, psub])
  have hn2 : pnorm (psub ((0 : ℝ), (2 : ℝ), (0 : ℝ))
      ((0 : ℝ), (1 : ℝ), (0 : ℝ))) = 1 :=
    pnorm_eq_of_sq zero_le_one (by norm_num [pdot, psub])
  rw [calculate_angle_some (by rw [hn1]; norm_num) (by rw [hn2]; norm_num),
    hn1, hn2]
  have hd : pdot (psub ((0 : ℝ), (0 : ℝ), (0 : ℝ)) ((0 : ℝ), (1 : ℝ), (0 : ℝ)))
      (psub ((0 : ℝ), (2 : ℝ), (0 : ℝ)) ((0 : ℝ), (1 : ℝ), (0 : ℝ))) = -1 := by
    norm_num [pdot, psub]
  rw [hd]
  norm_num [clipCos_neg_one, degArccos_neg_one]

theorem frameDL_bodyLeft :
    qdBodyLeft (landmarksToNp frameDeadliftLeft) = some 0 := by
  show calculate_angle (some ((0 : ℝ), (3 : ℝ), (0 : ℝ)))
    (some ((0 : ℝ), (0 : ℝ), (0 : ℝ)))
    (some ((0 : ℝ), (2 : ℝ), (0 : ℝ))) = some 0
  have hn1 : pnorm (psub ((0 : ℝ), (3 : ℝ), (0 : ℝ))
      ((0 : ℝ), (0 : ℝ), (0 : ℝ))) = 3 :=
    pnorm_eq_of_sq (by norm_num) (by norm_num [pdot, psub])
  have hn2 : pnorm (psub ((0 : ℝ), (2 : ℝ), (0 : ℝ))
      ((0 : ℝ), (0 : ℝ), (0 : ℝ))) = 2 :=
    pnorm_eq_of_sq (by norm_num) (by norm_num [pdot, psub])
  rw [calculate_angle_some (by rw [hn1]; norm_num) (by rw [hn2]; norm_num),
    hn1, hn2]
  have hd : pdot (psub ((0 : ℝ), (3 : ℝ), (0 : ℝ)) ((0 : ℝ), (0 : ℝ), (0 : ℝ)))
      (psub ((0 : ℝ), (2 : ℝ), (0 : ℝ)) ((0 : ℝ), (0 : ℝ), (0 : ℝ))) = 6 := by
    norm_num [pdot, psub]
  rw [hd]
  norm_num [clipCos_one, degArccos_one]

theorem frameDL_knees :
    qdKnees (landmarksToNp frameDeadliftLeft) = [180] := by
  unfold qdKnees
  rw [frameDL_kneeLeft]
  rfl

theorem frameDL_bodies :
    qdBodies (landmarksToNp frameDeadliftLeft) = [0] := by
  unfold qdBodies
  rw [frameDL_bodyLeft]
  rfl

theorem frameDL_noAsym :
    ¬(qdAsymAngle (landmarksToNp frameDeadliftLeft) ∨
      qdAsymXY (landmarksToNp frameDeadliftLeft)) := by
  have h1 : qdKneeRight (landmarksToNp frameDeadliftLeft) = none := rfl
  have h2 : safe_x (landmarksToNp frameDeadliftLeft) LEFT_KNEE = some 0 := rfl
  have h3 : safe_x (landmarksToNp frameDeadliftLeft) LEFT_ANKLE = some 0 := rfl
  have h4 : safe_x (landmarksToNp frameDeadliftLeft) RIGHT_KNEE = none := rfl
  intro hc
  rcases hc with hc | hc
  · unfold qdAsymAngle at hc
    rw [h1] at hc
    cases hq : qdKneeLeft (landmarksToNp frameDeadliftLeft) <;>
      rw [hq] at hc <;> exact hc
  · unfold qdAsymXY at hc
    rw [h2, h3, h4] at hc
    rcases hc with hc | hc
    · dsimp only at hc
      norm_num at hc
    · exact hc

/-- C2 (amended): on a frame where none of the earlier quick-detect
branches fires, `quick_detect_exercise` returns deadlift if and only if
at least one knee angle is defined, the minimum of the defined knee
angles is at least 140 degrees, and the defined body-alignment angles
are nonempty with mean below 170 degrees — a single defined knee angle
of at least 140 degrees suffices. -/
theorem C2_deadlift_iff (f : Frame)
    (hA : ¬(qdBodies (landmarksToNp f) ≠ [] ∧
      listMean (qdBodies (landmarksToNp f)) ≥ 170))
    (hB : ¬((qdKnees (landmarksToNp f)).length = 2 ∧
      ∀ k ∈ qdKnees (landmarksToNp f), k < 140))
    (hC : ¬(qdAsymAngle (landmarksToNp f) ∨ qdAsymXY (landmarksToNp f))) :
    quick_detect_exercise f = some "deadlift" ↔
      (qdKnees (landmarksToNp f) ≠ [] ∧
       listMin (qdKnees (landmarksToNp f)) ≥ 140 ∧
       qdBodies (landmarksToNp f) ≠ [] ∧
       listMean (qdBodies (landmarksToNp f)) < 170) := by
  unfold quick_detect_exercise
  dsimp only
  rw [if_neg hA, if_neg hB, if_neg hC]
  by_cases hD : qdKnees (landmarksToNp f) ≠ [] ∧
      listMin (qdKnees (landmarksToNp f)) ≥ 140 ∧
      qdBodies (landmarksToNp f) ≠ [] ∧
      listMean (qdBodies (landmarksToNp f)) < 170
  · rw [if_pos hD]
    simp [hD]
  · rw [if_neg hD]
    simp [hD]

/-- Witness for C2 (amended) on `frameDeadliftLeft`, where no earlier
branch fires and the right-hand side of the equivalence holds. -/
theorem C2_deadlift_iff_witness :
    quick_detect_exercise frameDeadliftLeft = some "deadlift" :=
  (C2_deadlift_iff frameDeadliftLeft
      (by rw [frameDL_bodies]; norm_num [listMean])
      (by rw [frameDL_knees]; norm_num)
      frameDL_noAsym).mpr
    (by rw [frameDL_knees, frameDL_bodies]
        norm_num [listMin, listMean])

/-- Counterexample to C2 as stated: `frameDeadliftLeft` has only the
left knee angle defined (the right one is undefined), no earlier branch
fires, and quick detect still classifies deadlift, because the source
tests `min(knees) >= 140` over the list of defined knee angles rather
than requiring both. -/
theorem C2_counterexample :
    qdKneeRight (landmarksToNp frameDeadliftLeft) = none ∧
    ¬(qdBodies (landmarksToNp frameDeadliftLeft) ≠ [] ∧
      listMean (qdBodies (landmarksToNp frameDeadliftLeft)) ≥ 170) ∧
    ¬((qdKnees (landmarksToNp frameDeadliftLeft)).length = 2 ∧
      ∀ k ∈ qdKnees (landmarksToNp frameDeadliftLeft), k < 140) ∧
    ¬(qdAsymAngle (landmarksToNp frameDeadliftLeft) ∨
      qdAsymXY (landmarksToNp frameDeadliftLeft)) ∧
    quick_detect_exercise frameDeadliftLeft = some "deadlift" := by
  refine ⟨rfl, ?_, ?_, frameDL_noAsym, ?_⟩
  · rw [frameDL_bodies]
    norm_num [listMean]
  · rw [frameDL_knees]
    norm_num
  · unfold quick_detect_exercise
    dsimp only
    rw [if_neg, if_neg, if_neg, if_pos]
    · rw [frameDL_knees, frameDL_bodies]
      norm_num [listMin, listMean]
    · exact frameDL_noAsym
    · rw [frameDL_knees]
      norm_num
    · rw [frameDL_bodies]
      norm_num [listMean]

theorem landmarksToNp_take (f : Frame) :
    landmarksToNp f = landmarksToNp (f.take 33) := by
  funext i
  simp only [landmarksToNp]
  rw [List.get?_take i.isLt]

theorem calculate_key_angles_take (f : Frame) :
    calculate_key_angles f = calculate_key_angles (f.take 33) := by
  simp only [calculate_key_angles]
  rw [landmarksToNp_take]

theorem quick_detect_take (f : Frame) :
    quick_detect_exercise f = quick_detect_exercise (f.take 33) := by
  simp only [quick_detect_exercise]
  rw [landmarksToNp_take]

theorem get_landmark_3d_raw_take {f : RawFrame} {idx : ℕ} (h : idx < 33) :
    get_landmark_3d_raw f idx = get_landmark_3d_raw (f.take 33) idx := by
  unfold get_landmark_3d_raw
  by_cases hc : f.length = 0 ∨ f.length ≤ idx
  · rw [if_pos hc, if_pos]
    rw [List.length_take]
    omega
  · rw [if_neg hc, if_neg]
    · exact (List.get?_take h).symm
    · rw [List.length_take]
      omega

theorem recognizeFrame_take (s : RecState) (f : Frame) (fs : Option ℝ) :
    recognizeFrame s f fs = recognizeFrame s (f.take 33) fs := by
  unfold recognizeFrame recognizeMain
  rw [quick_detect_take, calculate_key_angles_take]

theorem extract_key_points_take (f : RawFrame) :
    extract_key_points f = extract_key_points (f.take 33) := by
  simp only [extract_key_points]
  have h : key_indices.filterMap
      (fun idx => (get_landmark_3d_raw f idx).map (fun p => (idx, p))) =
      key_indices.filterMap
      (fun idx => (get_landmark_3d_raw (f.take 33) idx).map (fun p => (idx, p))) := by
    apply List.filterMap_congr
    intro idx hidx
    have hlt : idx < 33 := by
      fin_cases hidx <;> norm_num
    rw [get_landmark_3d_raw_take hlt]
  rw [h]

/-- C10: every embedded public operation reads at most the first 33
entries of the landmark collection (its result is unchanged by dropping
entries beyond index 32), the 33-row conversion yields a missing point
for every index at or beyond the frame length, and the array accessor
yields `none` for every out-of-range index, so the operations are total
in the frame's length and content. -/
theorem C10_first_33_entries :
    (∀ f : Frame, landmarksToNp f = landmarksToNp (f.take 33)) ∧
    (∀ (f : Frame) (idx : ℕ), 33 ≤ idx →
      get_landmark_3d (landmarksToNp f) idx = none) ∧
    (∀ (f : Frame) (i : Fin 33), f.length ≤ i.val → landmarksToNp f i = none) ∧
    (∀ f : Frame, quick_detect_exercise f = quick_detect_exercise (f.take 33)) ∧
    (∀ f : Frame, analyze_squat f = analyze_squat (f.take 33)) ∧
    (∀ (s : RecState) (f : Frame) (fs : Option ℝ) (up : Option UserProfile),
      recognize s (some f) fs up = recognize s (some (f.take 33)) fs up) ∧
    (∀ (s : FatState) (f : RawFrame) (up : Option UserProfile),
      fupdate s f up = fupdate s (f.take 33) up) := by
  refine ⟨landmarksToNp_take, ?_, ?_, quick_detect_take, ?_, ?_, ?_⟩
  · intro f idx h
    simp only [get_landmark_3d]
    rw [dif_neg (by omega)]
  · intro f i h
    simp only [landmarksToNp]
    rw [List.get?_eq_none.mpr h]
    rfl
  · intro f
    unfold analyze_squat
    rw [landmarksToNp_take]
  · intro s f fs up
    cases up with
    | none =>
      show recognizeFrame s f fs = recognizeFrame s (f.take 33) fs
      exact recognizeFrame_take s f fs
    | some u =>
      show recognizeFrame { s with exercise_profiles := get_user_profiles u }
          f fs = recognizeFrame { s with
            exercise_profiles := get_user_profiles u } (f.take 33) fs
      exact recognizeFrame_take _ f fs
  · intro s f up
    unfold fupdate
    rw [extract_key_points_take]

/-- Witness for C10 applied concretely: index 40 of any frame is never
read (yields `none`), and a one-entry frame has index 5 missing. -/
theorem C10_first_33_entries_witness :
    get_landmark_3d (landmarksToNp [some ((0 : ℝ), (0 : ℝ), (0 : ℝ))]) 40 = none ∧
    landmarksToNp [some ((0 : ℝ), (0 : ℝ), (0 : ℝ))] ⟨5, by norm_num⟩ = none :=
  ⟨C10_first_33_entries.2.1 [some (0, 0, 0)] 40 (by norm_num),
   C10_first_33_entries.2.2.1 [some (0, 0, 0)] ⟨5, by norm_num⟩ (by norm_num)⟩

/-- C4 (amended): a `recognize` call with an absent frame returns the
previous `(label, confidence, phase)` triple for every combination of
the optional arguments, and leaves the state unchanged when no user
profile is supplied; a supplied user profile rewrites the profile table
before the frame check, so the state is not unconditionally unchanged. -/
theorem C4_none_frame_noop (s : RecState) (fs : Option ℝ)
    (up : Option UserProfile) :
    (recognize s none fs up).1 =
      (s.current_exercise, s.confidence, s.last_phase) ∧
    recognize s none fs none = ((s.current_exercise, s.confidence,
      s.last_phase), s) := by
  cases up <;> simp [recognize]

/-- Counterexample to C4 as stated: with a high-flexibility user profile
the none-frame call rewrites the stored exercise profiles (the squat
knee range widens from (80, 140) to (70, 150)), so the recognizer state
does change. -/
theorem C4_counterexample :
    (recognize (initRecognizer 0.7 10 true 5) none none
        (some ⟨some "high", none⟩)).2 ≠ initRecognizer 0.7 10 true 5 := by
  intro h
  have h2 := congrArg RecState.exercise_profiles h
  simp [recognize, initRecognizer, get_user_profiles, default_profiles,
    squatProfile, pushupProfile, plankProfile, lungeProfile,
    deadliftProfile] at h2

/-- C8: `calculate_angle` yields `none` exactly when one of the points is
missing (None, or NaN-containing, which the embedding folds into `none`)
or one of the two formed vectors has zero norm; being a total Lean
function it raises no exception and guards the division. -/
theorem C8_angle_none_iff (p1 p2 p3 : Option Point3) :
    calculate_angle p1 p2 p3 = none ↔
      p1 = none ∨ p2 = none ∨ p3 = none ∨
      ∃ a b c, p1 = some a ∧ p2 = some b ∧ p3 = some c ∧
        (pnorm (psub a b) = 0 ∨ pnorm (psub c b) = 0) := by
  rcases p1 with _ | a <;> rcases p2 with _ | b <;> rcases p3 with _ | c <;>
    try (simp [calculate_angle]; done)
  by_cases h : pnorm (psub a b) = 0 ∨ pnorm (psub c b) = 0
  · simp only [calculate_angle]
    rw [if_pos h]
    simpa using h
  · have hn := not_or.mp h
    rw [calculate_angle_some hn.1 hn.2]
    push_neg at h
    simp [h.1, h.2]

end

end SportCoach
